import Mathlib

/-!
# telegraws: report window selection and report rendering

A shallow embedding of `config/config.go` (`Config`, `validateConfig`,
`Config.GetTimeParams`), of `utils/message.go` (`BuildMessage`) and of the
choice of the aggregation period in `services/waf.go` (`WAFMetrics`), with
the properties of the specification proved about it.

Modelling conventions

* `time.Time` is an instant on the UTC time line, counted in nanoseconds since
  the Unix epoch (`Time.unixNano : Int`).  `GetTimeParams` reads the wall clock
  once (`time.Now().UTC()`); the instant it reads is the parameter `nowUTC`.
  The library saturates `Time.Add` at the ends of its range, some 292 billion
  years from now; the model has no such ends.
* `time.Duration` is a signed 64-bit count of nanoseconds; arithmetic on it
  wraps modulo `2^64` (`wrapInt64`).
* Go strings are Lean `String`s.  The replacements made by the two escape
  functions act on single ASCII characters, so acting on characters and acting
  on UTF-8 bytes give the same result.
* A Go `map[string]V` is an association list in which the first binding of a
  key is the one that counts (`GoMap V`).
* A value of the dynamic type `any` is a value of `GoAny`; a failed type
  assertion panics, which is the result `none`.
* `float64` is kept abstract (class `Float64`): the renderer only looks metric
  values up, adds two of them and formats them with `%.Nf`.  What `%.Nf` prints
  for the zero value is the premise `FormatsZero` where a property needs it.
* `BuildMessage` appends strings to a `strings.Builder`; the model keeps the
  list of the strings written (`BuildMessageWrites`), block by block, and the
  report is their concatenation.
* Go does not fix the order in which `range` visits a map; the order is a
  parameter of the model (`RangeOrder`).
-/

namespace Telegraws

/-! ## Machine integers and time -/

/-- The value of a mathematical integer after it is stored in an `int64`. -/
def wrapInt64 (x : Int) : Int := (x + 2 ^ 63) % 2 ^ 64 - 2 ^ 63

/-- A `time.Duration`: nanoseconds, an `int64`. -/
abbrev Duration := Int

/-- The constant `time.Hour`. -/
def Hour : Duration := 3600 * 1000000000

/-- Multiplication of two `time.Duration` values (`int64` multiplication). -/
def Duration.mul (a b : Duration) : Duration := wrapInt64 (a * b)

/-- Unary minus on a `time.Duration` (`int64` negation). -/
def Duration.neg (a : Duration) : Duration := wrapInt64 (-a)

/-- The conversion `time.Duration(n)` of an `int`. -/
def Duration.ofInt (n : Int) : Duration := wrapInt64 n

/-- An instant: nanoseconds since 1970-01-01 00:00:00 UTC. -/
structure Time where
  unixNano : Int
  deriving DecidableEq, Repr

/-- The method `Time.Add`. -/
def Time.Add (t : Time) (d : Duration) : Time := ⟨t.unixNano + d⟩

/-- Whole seconds since the Unix epoch (rounded down). -/
def Time.unixSec (t : Time) : Int := t.unixNano / 1000000000

/-- The method `Time.Hour` of an instant in UTC: the hour of the day, 0..23. -/
def Time.Hour (t : Time) : Int := t.unixSec % 86400 / 3600

/-- The instant strictly before another (`Time.Before`). -/
def Time.Before (t u : Time) : Prop := t.unixNano < u.unixNano

instance (t u : Time) : Decidable (t.Before u) := by
  unfold Time.Before; infer_instance

/-- A `*time.Location`; the program only ever uses `time.UTC`. -/
inductive Location where
  | UTC
  deriving DecidableEq, Repr

/-! ## Configuration (`config/config.go`) -/

structure EmailConfig where
  Host : String
  Port : Int
  Username : String
  Password : String
  HeaderFrom : String
  EnvelopeFrom : String
  ToAddr : String
  deriving DecidableEq, Repr

structure TelegramConfig where
  BotToken : String
  ChatID : String
  deriving DecidableEq, Repr

structure NotificationsConfig where
  UseEmail : Bool
  Email : EmailConfig
  Telegram : TelegramConfig
  deriving DecidableEq, Repr

structure DeploymentConfig where
  LambdaFunctionName : String
  LambdaCronExpression : String
  deriving DecidableEq, Repr

structure MonitoringConfig where
  DefaultPeriod : Int
  DailyReportHourUTC : Int
  deriving DecidableEq, Repr

structure GlobalConfig where
  Notifications : NotificationsConfig
  Deployment : DeploymentConfig
  Monitoring : MonitoringConfig
  deriving DecidableEq, Repr

structure EC2Config where
  Enabled : Bool
  InstanceID : String
  deriving DecidableEq, Repr

structure S3Config where
  Enabled : Bool
  BucketName : String
  deriving DecidableEq, Repr

structure ALBConfig where
  Enabled : Bool
  ALBName : String
  deriving DecidableEq, Repr

structure CloudFrontConfig where
  Enabled : Bool
  DistributionID : String
  deriving DecidableEq, Repr

structure CloudWatchAgentConfig where
  Enabled : Bool
  InstanceID : String
  deriving DecidableEq, Repr

structure CloudWatchLogsConfig where
  Enabled : Bool
  LogGroupNames : List String
  deriving DecidableEq, Repr

structure WAFConfig where
  Enabled : Bool
  WebACLID : String
  WebACLName : String
  deriving DecidableEq, Repr

structure DynamoDBConfig where
  Enabled : Bool
  TableNames : List String
  deriving DecidableEq, Repr

structure RDSConfig where
  Enabled : Bool
  ClusterID : String
  DBInstanceIdentifier : String
  deriving DecidableEq, Repr

structure ServiceConfig where
  EC2 : EC2Config
  S3 : S3Config
  ALB : ALBConfig
  CloudFront : CloudFrontConfig
  CloudWatchAgent : CloudWatchAgentConfig
  CloudWatchLogs : CloudWatchLogsConfig
  WAF : WAFConfig
  DynamoDB : DynamoDBConfig
  RDS : RDSConfig
  deriving DecidableEq, Repr

structure Config where
  Global : GlobalConfig
  Services : ServiceConfig
  deriving DecidableEq, Repr

structure TimeParams where
  StartTime : Time
  EndTime : Time
  IsDailyReport : Bool
  Location : Location
  deriving DecidableEq, Repr

deriving instance DecidableEq for Except

/-- The method `Config.GetTimeParams` (config.go, lines 201-219), with the
instant read from the wall clock, `time.Now().UTC()`, as the parameter
`nowUTC`.  The Go function returns a pair of a result and an error; the error
it returns is always `nil`, which is the constructor `Except.ok` here. -/
def Config.GetTimeParams (c : Config) (nowUTC : Time) : Except String TimeParams :=
  let isDailyReport : Bool := decide (nowUTC.Hour = c.Global.Monitoring.DailyReportHourUTC)
  let start : Time :=
    if isDailyReport then
      nowUTC.Add (Duration.mul (-24) Hour)
    else
      nowUTC.Add (Duration.mul (Duration.neg (Duration.ofInt c.Global.Monitoring.DefaultPeriod)) Hour)
  Except.ok
    { StartTime := start
      EndTime := nowUTC
      IsDailyReport := isDailyReport
      Location := Location.UTC }

/-- The function `validateConfig` (config.go, lines 117-192): the first check
that fails gives the error, and `Except.ok ()` is the result `nil`. -/
def validateConfig (config : Config) : Except String Unit := do
  if config.Global.Notifications.UseEmail then
    if config.Global.Notifications.Email.Host = "" then
      throw "email enabled but host is empty"
    if config.Global.Notifications.Email.Port ≤ 0 then
      throw "email enabled but port is invalid"
    if config.Global.Notifications.Email.Username = "" ∨
        config.Global.Notifications.Email.Password = "" then
      throw "email enabled but username/password missing"
    if config.Global.Notifications.Email.HeaderFrom = "" then
      throw "email enabled but headerFrom is empty"
    if config.Global.Notifications.Email.EnvelopeFrom = "" then
      throw "email enabled but envelopeFrom is empty"
    if config.Global.Notifications.Email.ToAddr = "" then
      throw "email enabled but toAddr is empty"
  else
    if config.Global.Notifications.Telegram.BotToken = "" then
      throw "telegram botToken is required when email is disabled"
    if config.Global.Notifications.Telegram.ChatID = "" then
      throw "telegram chatId is required when email is disabled"
  if config.Global.Deployment.LambdaFunctionName = "" then
    throw "deployment lambdaFunctionName is required"
  if config.Global.Monitoring.DailyReportHourUTC < 0 ∨
      config.Global.Monitoring.DailyReportHourUTC > 23 then
    throw "dailyReportHour must be between 0 and 23"
  if config.Global.Monitoring.DefaultPeriod ≤ 0 then
    throw "defaultPeriod must be greater than 0"
  if config.Services.EC2.Enabled ∧ config.Services.EC2.InstanceID = "" then
    throw "EC2 is enabled but instanceId is empty"
  if config.Services.S3.Enabled ∧ config.Services.S3.BucketName = "" then
    throw "S3 is enabled but bucketName is empty"
  if config.Services.ALB.Enabled ∧ config.Services.ALB.ALBName = "" then
    throw "ALB is enabled but albName is empty"
  if config.Services.CloudFront.Enabled ∧ config.Services.CloudFront.DistributionID = "" then
    throw "CloudFront is enabled but distributionId is empty"
  if config.Services.CloudWatchAgent.Enabled ∧ config.Services.CloudWatchAgent.InstanceID = "" then
    throw "CloudWatch Agent is enabled but instanceId is empty"
  if config.Services.CloudWatchLogs.Enabled ∧
      config.Services.CloudWatchLogs.LogGroupNames.length = 0 then
    throw "CloudWatch Logs is enabled but logGroupNames array is empty"
  if config.Services.WAF.Enabled then
    if config.Services.WAF.WebACLID = "" then
      throw "WAF is enabled but webACLId is empty"
    if config.Services.WAF.WebACLName = "" then
      throw "WAF is enabled but webACLName is empty"
  if config.Services.DynamoDB.Enabled ∧ config.Services.DynamoDB.TableNames.length = 0 then
    throw "DynamoDB is enabled but tableNames array is empty"
  if config.Services.RDS.Enabled then
    if config.Services.RDS.ClusterID = "" ∧ config.Services.RDS.DBInstanceIdentifier = "" then
      throw ("RDS is enabled but both clusterId and dbInstanceIdentifier are empty - " ++
        "at least one is required")
  return ()

/-! ## Strings and formatting -/

/-- The function `strings.Contains`. -/
def stringsContains (s substr : String) : Bool := decide (substr.data <:+: s.data)

/-- One pass of `strings.ReplaceAll(text, old, new)` for an `old` of one
character: every occurrence of the character is replaced. -/
def replaceAllChar (text : String) (old : Char) (new : String) : String :=
  ⟨text.data.flatMap fun c => if c = old then new.data else [c]⟩

/-- The closure `escapeMarkdown` of `BuildMessage` (message.go, lines 11-15). -/
def escapeMarkdown (text : String) : String :=
  let text := replaceAllChar text '_' "\\_"
  let text := replaceAllChar text '*' "\\*"
  text

/-- The replacement table of Go's `html.EscapeString`
(`strings.NewReplacer("&", "&amp;", "'", "&#39;", "<", "&lt;", ">", "&gt;", "\"", "&#34;")`). -/
def htmlEscapeChar (c : Char) : List Char :=
  if c = '&' then "&amp;".data
  else if c = '\'' then "&#39;".data
  else if c = '<' then "&lt;".data
  else if c = '>' then "&gt;".data
  else if c = '"' then "&#34;".data
  else [c]

/-- Go's `html.EscapeString`: one pass that replaces each of the five
characters of the table by its entity. -/
def htmlEscapeString (s : String) : String := ⟨s.data.flatMap htmlEscapeChar⟩

/-- A natural number in decimal, padded with zeros on the left to at least
`width` digits. -/
def padNat (width n : Nat) : String :=
  let d := Nat.repr n
  ⟨List.replicate (width - d.length) '0'⟩ ++ d

/-- The verb `%d` of `fmt.Sprintf` applied to an `int`. -/
def formatInt (i : Int) : String :=
  if i < 0 then "-" ++ Nat.repr i.natAbs else Nat.repr i.natAbs

/-- The operations on `float64` that `BuildMessage` uses: the zero value (what
a lookup of a missing key gives), addition, and `fmt.Sprintf("%.Nf", v)`. -/
class Float64 (F : Type) where
  zero : F
  add : F → F → F
  format : Nat → F → String

/-- The civil date (year, month, day) of a day count relative to 1970-01-01
in the proleptic Gregorian calendar. -/
def civilFromDays (days : Int) : Int × Int × Int :=
  let z := days + 719468
  let era := z / 146097
  let doe := z % 146097
  let yoe := (doe - doe / 1460 + doe / 36524 - doe / 146096) / 365
  let doy := doe - (365 * yoe + yoe / 4 - yoe / 100)
  let mp := (5 * doy + 2) / 153
  let d := doy - (153 * mp + 2) / 5 + 1
  let m := if mp < 10 then mp + 3 else mp - 9
  let y := yoe + era * 400
  (if m ≤ 2 then y + 1 else y, m, d)

/-- The call `t.Format("02/01/2006 15:04:05")` on an instant in UTC: day,
month, year (four digits at least, a minus sign first for a negative year),
then hour, minute and second, each of two digits. -/
def Time.Format (t : Time) : String :=
  let sec := t.unixSec
  let (y, m, d) := civilFromDays (sec / 86400)
  let s := sec % 86400
  padNat 2 d.toNat ++ "/" ++ padNat 2 m.toNat ++ "/" ++
    (if y < 0 then "-" else "") ++ padNat 4 y.natAbs ++ " " ++
    padNat 2 (s / 3600).toNat ++ ":" ++ padNat 2 (s % 3600 / 60).toNat ++ ":" ++
    padNat 2 (s % 60).toNat

/-! ## Go maps and dynamic values -/

/-- A Go `map[string]V`: an association list, the first binding of a key
being the one that counts. -/
abbrev GoMap (V : Type) := List (String × V)

/-- The lookup `v, ok := m[k]`. -/
def GoMap.get? {V : Type} (m : GoMap V) (k : String) : Option V := List.lookup k m

/-- The lookup `m[k]`, which gives the zero value `z` of the value type for a
missing key. -/
def GoMap.getD {V : Type} (m : GoMap V) (k : String) (z : V) : V := (m.get? k).getD z

/-- The assignment `m[k] = v`. -/
def GoMap.insert {V : Type} (m : GoMap V) (k : String) (v : V) : GoMap V :=
  if m.any (fun e => e.1 == k) then m.map (fun e => if e.1 = k then (k, v) else e)
  else m ++ [(k, v)]

/-- The statement `delete(m, k)`. -/
def GoMap.delete {V : Type} (m : GoMap V) (k : String) : GoMap V :=
  m.filter fun e => e.1 ≠ k

/-- The entries of a map, one for each key (the binding that counts). -/
def GoMap.entries {V : Type} : GoMap V → GoMap V
  | [] => []
  | e :: rest => e :: (GoMap.entries rest).filter fun e2 => e2.1 ≠ e.1

/-- The built-in `len(m)`. -/
def GoMap.len {V : Type} (m : GoMap V) : Nat := m.entries.length

/-- A value of the dynamic type `any`, as far as `BuildMessage` tells values
apart: the three map types it asserts, and everything else. -/
inductive GoAny (F : Type) where
  | float64Map (m : List (String × F))
  | anyMap (m : List (String × GoAny F))
  | intMap (m : List (String × Int))
  | other

/-- The type assertion `d.(map[string]float64)`; `none` is the panic. -/
def GoAny.toFloat64Map {F : Type} : GoAny F → Option (GoMap F)
  | .float64Map m => some m
  | _ => none

/-- The type assertion `d.(map[string]any)`; `none` is the panic. -/
def GoAny.toAnyMap {F : Type} : GoAny F → Option (GoMap (GoAny F))
  | .anyMap m => some m
  | _ => none

/-- The type assertion `d.(map[string]int)`; `none` is the panic. -/
def GoAny.toIntMap {F : Type} : GoAny F → Option (GoMap Int)
  | .intMap m => some m
  | _ => none

/-- The order in which a `for ... range` statement visits the entries of a
map.  Go leaves it unspecified and the runtime varies it from one loop to the
next, so the order is an input of the model: any rearrangement of the
entries. -/
structure RangeOrder (V : Type) where
  visit : GoMap V → GoMap V
  visit_perm : ∀ m, (visit m).Perm m

/-- The range order that visits the entries in order of insertion. -/
def RangeOrder.inOrder (V : Type) : RangeOrder V := ⟨id, fun _ => List.Perm.refl _⟩

/-- The range order that visits the entries in reverse order of insertion. -/
def RangeOrder.reversed (V : Type) : RangeOrder V :=
  ⟨List.reverse, fun m => List.reverse_perm m⟩

/-! ## The renderer (`utils/message.go`) -/

/-- The local type `renderer` of `BuildMessage`: the four capabilities of an
output dialect. -/
structure renderer where
  bold : String → String
  esc : String → String
  nl : String
  sep : Bool → String

/-- The renderer `tg` (message.go, lines 24-34): the Telegram markup. -/
def tg : renderer :=
  { bold := fun s => "*" ++ s ++ "*"
    esc := escapeMarkdown
    nl := "\n"
    sep := fun daily =>
      if daily then "\n= = = = = = = = = = = = = = =\n\n"
      else "\n- - - - - - - - - - - - - - -\n\n" }

/-- The renderer `htmlR` (message.go, lines 36-41): HTML for email. -/
def htmlR : renderer :=
  { bold := fun s => "<strong>" ++ htmlEscapeString s ++ "</strong>"
    esc := htmlEscapeString
    nl := "<br>"
    sep := fun _ => "<hr style=\"border:none;border-top:1px solid #ccc;margin:12px 0;\">" }

/-- The choice `r := tg; if forEmail { r = htmlR }` (message.go, lines 43-46). -/
def selectRenderer (forEmail : Bool) : renderer := if forEmail then htmlR else tg

section Sections

variable {F : Type} [Float64 F]

/-- The lookup `m[key]` in a `map[string]float64`. -/
def metric (m : GoMap F) (key : String) : F := m.getD key Float64.zero

/-- The verb `%.Nf` of `fmt.Sprintf`. -/
def fmtF (prec : Nat) (v : F) : String := Float64.format prec v

/-- The header block (message.go, lines 50-54), as the list of the strings
written to the builder. -/
def headerWrites (r : renderer) (timeParams : TimeParams) : List String :=
  [r.sep timeParams.IsDailyReport, timeParams.EndTime.Format, r.nl, r.nl]

/-- The EC2 block (message.go, lines 56-68). -/
def ec2Writes (r : renderer) (cfg : Config) (allMetrics : GoMap (GoAny F)) :
    Option (List String) :=
  if cfg.Services.EC2.Enabled then
    match allMetrics.get? "ec2" with
    | some d => do
      let m ← d.toFloat64Map
      pure
        [ r.bold "EC2" ++ ": " ++ r.esc cfg.Services.EC2.InstanceID ++ r.nl,
          "CPU: " ++ fmtF 2 (metric m "CPUUtilization_Average") ++ "% (avg), " ++
            fmtF 2 (metric m "CPUUtilization_Maximum") ++ "% (max)" ++ r.nl,
          "Status Checks Failed: " ++ fmtF 0 (metric m "StatusCheckFailed") ++ r.nl,
          "Network In: " ++ fmtF 2 (metric m "NetworkIn") ++ " MB" ++ r.nl,
          "Network Out: " ++ fmtF 2 (metric m "NetworkOut") ++ " MB" ++ r.nl ]
    | none => pure []
  else pure []

/-- The CloudWatch Agent block (message.go, lines 70-79). -/
def cloudwatchAgentWrites (r : renderer) (cfg : Config) (allMetrics : GoMap (GoAny F)) :
    Option (List String) :=
  if cfg.Services.CloudWatchAgent.Enabled then
    match allMetrics.get? "cloudwatchAgent" with
    | some d => do
      let m ← d.toFloat64Map
      pure
        [ "Memory: " ++ fmtF 2 (metric m "mem_used_percent_Average") ++ "% (avg), " ++
            fmtF 2 (metric m "mem_used_percent_Maximum") ++ "% (max)" ++ r.nl,
          "Disk: " ++ fmtF 2 (metric m "disk_used_percent") ++ "%" ++ r.nl,
          r.nl ]
    | none => pure []
  else pure []

/-- The S3 block (message.go, lines 81-92). -/
def s3Writes (r : renderer) (cfg : Config) (timeParams : TimeParams)
    (allMetrics : GoMap (GoAny F)) : Option (List String) :=
  if cfg.Services.S3.Enabled && timeParams.IsDailyReport then
    match allMetrics.get? "s3" with
    | some d => do
      let m ← d.toFloat64Map
      pure
        [ r.bold "S3" ++ " " ++ r.esc cfg.Services.S3.BucketName ++ r.nl,
          "Size: " ++ fmtF 2 (metric m "BucketSizeBytes") ++ " MB" ++ r.nl,
          "Requests: " ++ fmtF 0 (metric m "AllRequests") ++ r.nl,
          "4xx Errors: " ++ fmtF 0 (metric m "4xxErrors") ++ r.nl,
          "5xx Errors: " ++ fmtF 0 (metric m "5xxErrors") ++ r.nl,
          r.nl ]
    | none => pure []
  else pure []

/-- The ALB block (message.go, lines 94-109). -/
def albWrites (r : renderer) (cfg : Config) (allMetrics : GoMap (GoAny F)) :
    Option (List String) :=
  if cfg.Services.ALB.Enabled then
    match allMetrics.get? "alb" with
    | some d => do
      let m ← d.toFloat64Map
      let elbErrors : F :=
        Float64.add (metric m "HTTPCode_ELB_4XX_Count") (metric m "HTTPCode_ELB_5XX_Count")
      pure
        [ r.bold "ALB" ++ " " ++ r.esc cfg.Services.ALB.ALBName ++ r.nl,
          "Requests: " ++ fmtF 0 (metric m "RequestCount") ++ r.nl,
          "Response Time: " ++ fmtF 3 (metric m "TargetResponseTime") ++ " s" ++ r.nl,
          "2xx: " ++ fmtF 0 (metric m "HTTPCode_Target_2XX_Count") ++ ", 4xx: " ++
            fmtF 0 (metric m "HTTPCode_Target_4XX_Count") ++ ", 5xx: " ++
            fmtF 0 (metric m "HTTPCode_Target_5XX_Count") ++ r.nl,
          "Healthy: " ++ fmtF 0 (metric m "HealthyHostCount") ++ ", Unhealthy: " ++
            fmtF 0 (metric m "UnHealthyHostCount") ++ r.nl,
          "ALB Errors: " ++ fmtF 0 elbErrors ++ r.nl,
          r.nl ]
    | none => pure []
  else pure []

/-- The CloudFront block (message.go, lines 111-124). -/
def cloudfrontWrites (r : renderer) (cfg : Config) (allMetrics : GoMap (GoAny F)) :
    Option (List String) :=
  if cfg.Services.CloudFront.Enabled then
    match allMetrics.get? "cloudfront" with
    | some d => do
      let m ← d.toFloat64Map
      pure
        [ r.bold "CloudFront" ++ " " ++ r.esc cfg.Services.CloudFront.DistributionID ++ r.nl,
          "Requests: " ++ fmtF 0 (metric m "Requests") ++ r.nl,
          "Data Downloaded: " ++ fmtF 2 (metric m "BytesDownloaded") ++ " MB" ++ r.nl,
          "Cache Hit Rate: " ++ fmtF 2 (metric m "CacheHitRate") ++ "%" ++ r.nl,
          "4xx Error Rate: " ++ fmtF 2 (metric m "4xxErrorRate") ++ "%" ++ r.nl,
          "5xx Error Rate: " ++ fmtF 2 (metric m "5xxErrorRate") ++ "%" ++ r.nl,
          "Origin Latency: " ++ fmtF 2 (metric m "OriginLatency") ++ " ms" ++ r.nl,
          r.nl ]
    | none => pure []
  else pure []

/-- The strings written for one DynamoDB table whose metrics are `m`
(message.go, lines 133-142). -/
def dynamoTableWrites (r : renderer) (table : String) (m : GoMap F) : List String :=
  let totalErrors : F := Float64.add (metric m "UserErrors") (metric m "SystemErrors")
  [ r.bold "DynamoDB" ++ " " ++ r.esc table ++ r.nl,
    "Total Requests: " ++ fmtF 0 (metric m "RequestCount") ++ r.nl,
    "Read Throttles: " ++ fmtF 0 (metric m "ReadThrottledRequests") ++ r.nl,
    "Write Throttles: " ++ fmtF 0 (metric m "WriteThrottledRequests") ++ r.nl,
    "Latency: " ++ fmtF 2 (metric m "SuccessfulRequestLatency") ++ " ms" ++ r.nl,
    "Read Capacity: " ++ fmtF 0 (metric m "ConsumedReadCapacityUnits") ++ " units" ++ r.nl,
    "Write Capacity: " ++ fmtF 0 (metric m "ConsumedWriteCapacityUnits") ++ " units" ++ r.nl,
    "DB Errors: " ++ fmtF 0 totalErrors ++ r.nl,
    r.nl ]

/-- The loop `for _, table := range cfg.Services.DynamoDB.TableNames`
(message.go, lines 130-144) over the table names still to visit. -/
def dynamoLoop (r : renderer) (allTables : GoMap (GoAny F)) : List String → Option (List String)
  | [] => pure []
  | table :: rest =>
    match allTables.get? table with
    | some td => do
      let m ← td.toFloat64Map
      let more ← dynamoLoop r allTables rest
      pure (dynamoTableWrites r table m ++ more)
    | none => dynamoLoop r allTables rest

/-- The DynamoDB block (message.go, lines 126-146). -/
def dynamodbWrites (r : renderer) (cfg : Config) (allMetrics : GoMap (GoAny F)) :
    Option (List String) :=
  if cfg.Services.DynamoDB.Enabled then
    match allMetrics.get? "dynamodb" with
    | some d => do
      let allTables ← d.toAnyMap
      dynamoLoop r allTables cfg.Services.DynamoDB.TableNames
    | none => pure []
  else pure []

/-- The RDS header (message.go, lines 153-161). -/
def rdsHeader (r : renderer) (cfg : Config) : String :=
  if cfg.Services.RDS.ClusterID ≠ "" ∧ cfg.Services.RDS.DBInstanceIdentifier ≠ "" then
    r.bold "RDS" ++ " " ++ r.esc cfg.Services.RDS.ClusterID ++ " / " ++
      r.esc cfg.Services.RDS.DBInstanceIdentifier
  else if cfg.Services.RDS.ClusterID ≠ "" then
    r.bold "RDS" ++ " Cluster " ++ r.esc cfg.Services.RDS.ClusterID
  else
    r.bold "RDS" ++ " Instance " ++ r.esc cfg.Services.RDS.DBInstanceIdentifier

/-- One line of the RDS block that is written only when its key is present:
`if v, ok := m[key]; ok { b.WriteString(before + "%.Nf" + after + r.nl) }`. -/
def rdsLine (r : renderer) (m : GoMap F) (key before : String) (prec : Nat) (after : String) :
    List String :=
  match m.get? key with
  | some v => [before ++ fmtF prec v ++ after ++ r.nl]
  | none => []

/-- The CPU line of the RDS block (message.go, lines 165-171). -/
def rdsCPULine (r : renderer) (m : GoMap F) : List String :=
  match m.get? "Instance_CPUUtilization_Average" with
  | some v =>
    let line := "CPU: " ++ fmtF 2 v ++ "% (avg)"
    let line :=
      match m.get? "Instance_CPUUtilization_Maximum" with
      | some v2 => line ++ (", " ++ fmtF 2 v2 ++ "% (max)")
      | none => line
    [line ++ r.nl]
  | none => []

/-- The instance-scoped lines of the RDS block (message.go, lines 164-184). -/
def rdsInstanceWrites (r : renderer) (cfg : Config) (m : GoMap F) : List String :=
  if cfg.Services.RDS.DBInstanceIdentifier ≠ "" then
    rdsCPULine r m ++
    rdsLine r m "Instance_FreeableMemory" "Free Memory: " 2 " GB" ++
    rdsLine r m "Instance_DatabaseConnections" "Connections: " 0 "" ++
    rdsLine r m "Instance_ReadLatency" "Read Latency: " 2 " ms" ++
    rdsLine r m "Instance_WriteLatency" "Write Latency: " 2 " ms"
  else []

/-- The cluster-scoped lines of the RDS block (message.go, lines 185-195). -/
def rdsClusterWrites (r : renderer) (cfg : Config) (m : GoMap F) : List String :=
  if cfg.Services.RDS.ClusterID ≠ "" then
    rdsLine r m "Cluster_VolumeBytesUsed" "Volume Size: " 2 " GB" ++
    rdsLine r m "Cluster_VolumeReadIOPs" "Read IOPS: " 0 "" ++
    rdsLine r m "Cluster_VolumeWriteIOPs" "Write IOPS: " 0 ""
  else []

/-- The RDS block (message.go, lines 148-198). -/
def rdsWrites (r : renderer) (cfg : Config) (allMetrics : GoMap (GoAny F)) :
    Option (List String) :=
  if cfg.Services.RDS.Enabled then
    match allMetrics.get? "rds" with
    | some d => do
      let m ← d.toFloat64Map
      pure ([rdsHeader r cfg ++ r.nl] ++ rdsInstanceWrites r cfg m ++ rdsClusterWrites r cfg m ++
        [r.nl])
    | none => pure []
  else pure []

/-- The WAF block (message.go, lines 200-209). -/
def wafWrites (r : renderer) (cfg : Config) (allMetrics : GoMap (GoAny F)) :
    Option (List String) :=
  if cfg.Services.WAF.Enabled then
    match allMetrics.get? "waf" with
    | some d => do
      let m ← d.toFloat64Map
      pure
        [ r.bold "WAF" ++ " " ++ r.esc cfg.Services.WAF.WebACLName ++ r.nl,
          "Allowed Requests: " ++ fmtF 0 (metric m "AllowedRequests") ++ r.nl,
          "Blocked Requests: " ++ fmtF 0 (metric m "BlockedRequests") ++ r.nl,
          r.nl ]
    | none => pure []
  else pure []

/-- The loop that sorts the log groups into the two local maps
`applicationLogs` and `lambdaLogs` (message.go, lines 218-226), over the names
still to visit; the pair holds `applicationLogs` first. -/
def partitionLoop (logsMetrics : GoMap (GoAny F)) :
    List String → GoMap (GoAny F) × GoMap (GoAny F) → GoMap (GoAny F) × GoMap (GoAny F)
  | [], acc => acc
  | name :: rest, (applicationLogs, lambdaLogs) =>
    match logsMetrics.get? name with
    | some data =>
      if stringsContains name "/aws/lambda/" then
        partitionLoop logsMetrics rest (applicationLogs, lambdaLogs.insert name data)
      else
        partitionLoop logsMetrics rest (applicationLogs.insert name data, lambdaLogs)
    | none => partitionLoop logsMetrics rest (applicationLogs, lambdaLogs)

/-- The strings written for one log group whose counts are `cnt`
(message.go, lines 232-236 and 244-248). -/
def logGroupWrites (r : renderer) (lg : String) (cnt : GoMap Int) : List String :=
  [ r.esc lg ++ ":" ++ r.nl,
    "INFO: " ++ formatInt (cnt.getD "info" 0) ++ r.nl,
    "WARN: " ++ formatInt (cnt.getD "warn" 0) ++ r.nl,
    "ERROR: " ++ formatInt (cnt.getD "error" 0) ++ r.nl,
    r.nl ]

/-- The body of `for lg, data := range logs` (message.go, lines 230-237 and
242-249) over the entries in the order in which the loop visits them. -/
def logRangeLoop (r : renderer) : List (String × GoAny F) → Option (List String)
  | [] => pure []
  | (lg, data) :: rest => do
    let cnt ← data.toIntMap
    let more ← logRangeLoop r rest
    pure (logGroupWrites r lg cnt ++ more)

/-- One of the two group blocks, `APPLICATION` or `LAMBDA`
(message.go, lines 228-238 and 240-250). -/
def logBucketWrites (ro : RangeOrder (GoAny F)) (r : renderer) (title : String)
    (logs : GoMap (GoAny F)) : Option (List String) :=
  if logs.len > 0 then do
    let body ← logRangeLoop r (ro.visit logs.entries)
    pure ([r.bold title ++ r.nl] ++ body)
  else pure []

/-- The CloudWatch Logs block (message.go, lines 211-252). -/
def cloudwatchLogsWrites (ro : RangeOrder (GoAny F)) (r : renderer) (cfg : Config)
    (allMetrics : GoMap (GoAny F)) : Option (List String) :=
  if cfg.Services.CloudWatchLogs.Enabled then
    match allMetrics.get? "cloudwatchLogs" with
    | some d => do
      let logsMetrics ← d.toAnyMap
      let (applicationLogs, lambdaLogs) :=
        partitionLoop logsMetrics cfg.Services.CloudWatchLogs.LogGroupNames ([], [])
      let app ← logBucketWrites ro r "APPLICATION" applicationLogs
      let lam ← logBucketWrites ro r "LAMBDA" lambdaLogs
      pure (app ++ lam)
    | none => pure []
  else pure []

/-- The strings `BuildMessage` writes to its builder, in order
(message.go, lines 48-255); `none` when a type assertion panics. -/
def BuildMessageWrites (ro : RangeOrder (GoAny F)) (cfg : Config) (timeParams : TimeParams)
    (allMetrics : GoMap (GoAny F)) (forEmail : Bool) : Option (List String) := do
  let r := selectRenderer forEmail
  let ec2 ← ec2Writes r cfg allMetrics
  let agent ← cloudwatchAgentWrites r cfg allMetrics
  let s3 ← s3Writes r cfg timeParams allMetrics
  let alb ← albWrites r cfg allMetrics
  let cloudfront ← cloudfrontWrites r cfg allMetrics
  let dynamodb ← dynamodbWrites r cfg allMetrics
  let rds ← rdsWrites r cfg allMetrics
  let waf ← wafWrites r cfg allMetrics
  let logs ← cloudwatchLogsWrites ro r cfg allMetrics
  pure (headerWrites r timeParams ++ ec2 ++ agent ++ s3 ++ alb ++ cloudfront ++ dynamodb ++
    rds ++ waf ++ logs ++ [r.sep timeParams.IsDailyReport])

/-- The function `BuildMessage` (message.go, lines 10-262).  The extra
parameter `ro` is the order in which the two `range` loops over the local
maps visit their entries; `none` is a panic of a type assertion. -/
def BuildMessage (ro : RangeOrder (GoAny F)) (cfg : Config) (timeParams : TimeParams)
    (allMetrics : GoMap (GoAny F)) (forEmail : Bool) : Option String := do
  let writes ← BuildMessageWrites ro cfg timeParams allMetrics forEmail
  let b := String.join writes
  if forEmail then
    pure ("<html><body style=\"font-family: monospace; white-space: pre-wrap;\">" ++ b ++
      "</body></html>")
  else
    pure b

end Sections

/-! ### A sample number type -/

/-- A decimal number with three digits after the point, `thousandths / 1000`:
a number type on which the renderer can be run. -/
structure Milli where
  thousandths : Int
  deriving DecidableEq, Repr

/-- A `Milli` with `prec` digits after the point (`prec` at most 3 rounds to
the nearest, ties to even; more digits are zeros). -/
def Milli.format (prec : Nat) (v : Milli) : String :=
  let a := v.thousandths.natAbs
  let scale := 10 ^ (3 - prec)
  let q := a / scale
  let rem := a % scale
  let q := if 2 * rem > scale ∨ (2 * rem = scale ∧ q % 2 = 1) then q + 1 else q
  let unit := 10 ^ (min prec 3)
  let sign := if v.thousandths < 0 then "-" else ""
  if prec = 0 then sign ++ Nat.repr q
  else sign ++ Nat.repr (q / unit) ++ "." ++ padNat (min prec 3) (q % unit) ++
    ⟨List.replicate (prec - 3) '0'⟩

instance : Float64 Milli where
  zero := ⟨0⟩
  add a b := ⟨a.thousandths + b.thousandths⟩
  format := Milli.format

/-! ### Sample configurations -/

/-- A configuration with every service disabled, the daily report at hour `h`
and a default period of `p` hours. -/
def baseConfig (h p : Int) : Config :=
  { Global :=
      { Notifications :=
          { UseEmail := false
            Email := ⟨"", 0, "", "", "", "", ""⟩
            Telegram := ⟨"token", "chat"⟩ }
        Deployment := ⟨"telegraws", "rate(1 hour)"⟩
        Monitoring := ⟨p, h⟩ }
    Services :=
      { EC2 := ⟨false, ""⟩
        S3 := ⟨false, ""⟩
        ALB := ⟨false, ""⟩
        CloudFront := ⟨false, ""⟩
        CloudWatchAgent := ⟨false, ""⟩
        CloudWatchLogs := ⟨false, []⟩
        WAF := ⟨false, "", ""⟩
        DynamoDB := ⟨false, []⟩
        RDS := ⟨false, "", ""⟩ } }

/-- The instant 2024-03-05 07:08:09 UTC. -/
def sampleNow : Time := ⟨1709622489 * 1000000000⟩

/-- The images of the two characters that the Telegram markup escapes, as the
specification words it: `_` becomes `\_`, `*` becomes `\*`, any other
character is kept. -/
def escapeMarkdownCharSpec (c : Char) : List Char :=
  if c = '_' then ['\\', '_'] else if c = '*' then ['\\', '*'] else [c]

/-- The escape of the Telegram markup as the specification words it: every
character replaced by its image, in order, in one pass. -/
def escapeMarkdownSpec (s : String) : String := ⟨s.data.flatMap escapeMarkdownCharSpec⟩

/-- The configuration with the S3 service switched off and nothing else
changed. -/
def disableS3 (cfg : Config) : Config :=
  { cfg with Services := { cfg.Services with S3 := { cfg.Services.S3 with Enabled := false } } }

/-- An interval window: the six hours before 2024-03-05 07:08:09 UTC. -/
def intervalParams : TimeParams :=
  { StartTime := ⟨sampleNow.unixNano - 6 * 3600 * 1000000000⟩
    EndTime := sampleNow
    IsDailyReport := false
    Location := Location.UTC }

/-- A daily window: the 24 hours before 2024-03-05 07:08:09 UTC. -/
def dailyParams : TimeParams :=
  { StartTime := ⟨sampleNow.unixNano - 24 * 3600 * 1000000000⟩
    EndTime := sampleNow
    IsDailyReport := true
    Location := Location.UTC }

/-- S3 enabled for the bucket `my_bucket`. -/
def s3Config : Config :=
  { baseConfig 7 6 with Services := { (baseConfig 7 6).Services with S3 := ⟨true, "my_bucket"⟩ } }

/-- A bag with an `"s3"` entry. -/
def s3Bag : GoMap (GoAny Milli) :=
  [("s3", GoAny.float64Map [("BucketSizeBytes", ⟨12340⟩), ("AllRequests", ⟨7000⟩)])]

/-- CloudWatch Logs enabled for two application log groups. -/
def twoAppLogsConfig : Config :=
  { baseConfig 7 6 with
    Services := { (baseConfig 7 6).Services with
      CloudWatchLogs := ⟨true, ["/svc/app-a", "/svc/app-b"]⟩ } }

/-- A bag with counts for the two application log groups. -/
def twoAppLogsBag : GoMap (GoAny Milli) :=
  [("cloudwatchLogs", GoAny.anyMap
    [ ("/svc/app-a", GoAny.intMap [("info", 3), ("warn", 0), ("error", 1)]),
      ("/svc/app-b", GoAny.intMap [("info", 5), ("warn", 2), ("error", 0)]) ])]

/-- RDS enabled with the cluster `db-cluster-1` and no instance identifier. -/
def rdsClusterConfig : Config :=
  { baseConfig 7 6 with
    Services := { (baseConfig 7 6).Services with RDS := ⟨true, "db-cluster-1", ""⟩ } }

/-- A bag whose `"rds"` entry has the volume size, 120.5, and two
instance-scoped metrics. -/
def rdsClusterBag : GoMap (GoAny Milli) :=
  [("rds", GoAny.float64Map
    [ ("Cluster_VolumeBytesUsed", ⟨120500⟩),
      ("Instance_CPUUtilization_Average", ⟨50000⟩),
      ("Instance_FreeableMemory", ⟨2000⟩) ])]

/-- Some string of the list of written strings begins with `label`. -/
def hasLine (ws : List String) (label : String) : Prop := ∃ w ∈ ws, label.data <+: w.data

/-- The instance-scoped lines of the RDS block as the specification lists
them: the text each begins with, and its metric key. -/
def rdsInstanceLines : List (String × String) :=
  [ ("CPU: ", "Instance_CPUUtilization_Average"),
    ("Free Memory: ", "Instance_FreeableMemory"),
    ("Connections: ", "Instance_DatabaseConnections"),
    ("Read Latency: ", "Instance_ReadLatency"),
    ("Write Latency: ", "Instance_WriteLatency") ]

/-- The cluster-scoped lines of the RDS block as the specification lists
them: the text each begins with, and its metric key. -/
def rdsClusterLines : List (String × String) :=
  [ ("Volume Size: ", "Cluster_VolumeBytesUsed"),
    ("Read IOPS: ", "Cluster_VolumeReadIOPs"),
    ("Write IOPS: ", "Cluster_VolumeWriteIOPs") ]

/-- DynamoDB enabled for the tables `t1` and `t2`. -/
def dynamoConfig : Config :=
  { baseConfig 7 6 with
    Services := { (baseConfig 7 6).Services with DynamoDB := ⟨true, ["t1", "t2"]⟩ } }

/-- The nested payload of `dynamoBag`: metrics for the configured table `t1`
and for a table `t3` that is not configured, none for `t2`. -/
def dynamoTables : GoMap (GoAny Milli) :=
  [ ("t3", GoAny.float64Map [("RequestCount", ⟨9000⟩)]),
    ("t1", GoAny.float64Map
      [("RequestCount", ⟨42000⟩), ("UserErrors", ⟨1000⟩), ("SystemErrors", ⟨2000⟩)]) ]

/-- A bag whose `"dynamodb"` entry is `dynamoTables`. -/
def dynamoBag : GoMap (GoAny Milli) := [("dynamodb", GoAny.anyMap dynamoTables)]

/-- DynamoDB enabled with the table `t1` listed twice in `tableNames`. -/
def dupTableConfig : Config :=
  { baseConfig 7 6 with
    Services := { (baseConfig 7 6).Services with DynamoDB := ⟨true, ["t1", "t1"]⟩ } }

/-- The entries of a map have pairwise different keys. -/
def GoMap.NodupKeys {V : Type} (m : GoMap V) : Prop := (m.map Prod.fst).Nodup

/-- One group block of the log section as the specification words it: nothing
for an empty bucket, otherwise the bold group header and then one sub-entry
for each log group of the bucket. -/
def logBucketSpec (r : renderer) (title : String) (groups : List (String × GoMap Int)) :
    List String :=
  match groups with
  | [] => []
  | _ :: _ => [r.bold title ++ r.nl] ++ groups.flatMap fun g => logGroupWrites r g.1 g.2

/-- CloudWatch Logs enabled for a Lambda log group, an application log group
and a log group for which the bag has no data. -/
def logsConfig : Config :=
  { baseConfig 7 6 with
    Services := { (baseConfig 7 6).Services with
      CloudWatchLogs := ⟨true, ["/aws/lambda/fn-a", "/svc/app-b", "/svc/no-data"]⟩ } }

/-- The nested payload of `logsBag`. -/
def logsMetricsSample : GoMap (GoAny Milli) :=
  [ ("/aws/lambda/fn-a", GoAny.intMap [("info", 3), ("warn", 0), ("error", 1)]),
    ("/svc/app-b", GoAny.intMap [("info", 3), ("warn", 0), ("error", 1)]) ]

/-- A bag whose `"cloudwatchLogs"` entry is `logsMetricsSample`. -/
def logsBag : GoMap (GoAny Milli) := [("cloudwatchLogs", GoAny.anyMap logsMetricsSample)]

/-- The report without any section, as the specification words it: the
separator, the formatted end of the window, two newline tokens and the
separator again, inside the HTML shell in the HTML dialect. -/
def emptyReport (timeParams : TimeParams) (forEmail : Bool) : String :=
  if forEmail then
    "<html><body style=\"font-family: monospace; white-space: pre-wrap;\">" ++
      (htmlR.sep timeParams.IsDailyReport ++ timeParams.EndTime.Format ++ "<br>" ++ "<br>" ++
        htmlR.sep timeParams.IsDailyReport) ++ "</body></html>"
  else
    tg.sep timeParams.IsDailyReport ++ timeParams.EndTime.Format ++ "\n" ++ "\n" ++
      tg.sep timeParams.IsDailyReport

/-- Every service of the configuration has `Enabled = false`. -/
def allDisabled (cfg : Config) : Prop :=
  cfg.Services.EC2.Enabled = false ∧ cfg.Services.CloudWatchAgent.Enabled = false ∧
  cfg.Services.S3.Enabled = false ∧ cfg.Services.ALB.Enabled = false ∧
  cfg.Services.CloudFront.Enabled = false ∧ cfg.Services.DynamoDB.Enabled = false ∧
  cfg.Services.RDS.Enabled = false ∧ cfg.Services.WAF.Enabled = false ∧
  cfg.Services.CloudWatchLogs.Enabled = false

/-- Two bags have the same entry for every kind whose `Enabled` flag is
true. -/
def agreeOnEnabled {F : Type} (cfg : Config) (bag1 bag2 : GoMap (GoAny F)) : Prop :=
  (cfg.Services.EC2.Enabled = true → GoMap.get? bag1 "ec2" = GoMap.get? bag2 "ec2") ∧
  (cfg.Services.CloudWatchAgent.Enabled = true →
    GoMap.get? bag1 "cloudwatchAgent" = GoMap.get? bag2 "cloudwatchAgent") ∧
  (cfg.Services.S3.Enabled = true → GoMap.get? bag1 "s3" = GoMap.get? bag2 "s3") ∧
  (cfg.Services.ALB.Enabled = true → GoMap.get? bag1 "alb" = GoMap.get? bag2 "alb") ∧
  (cfg.Services.CloudFront.Enabled = true →
    GoMap.get? bag1 "cloudfront" = GoMap.get? bag2 "cloudfront") ∧
  (cfg.Services.DynamoDB.Enabled = true →
    GoMap.get? bag1 "dynamodb" = GoMap.get? bag2 "dynamodb") ∧
  (cfg.Services.RDS.Enabled = true → GoMap.get? bag1 "rds" = GoMap.get? bag2 "rds") ∧
  (cfg.Services.WAF.Enabled = true → GoMap.get? bag1 "waf" = GoMap.get? bag2 "waf") ∧
  (cfg.Services.CloudWatchLogs.Enabled = true →
    GoMap.get? bag1 "cloudwatchLogs" = GoMap.get? bag2 "cloudwatchLogs")

/-- Every service enabled, with an identifier each. -/
def allEnabledConfig : Config :=
  { baseConfig 7 6 with
    Services :=
      { EC2 := ⟨true, "i-0abc"⟩
        S3 := ⟨true, "my_bucket"⟩
        ALB := ⟨true, "alb-1"⟩
        CloudFront := ⟨true, "E123"⟩
        CloudWatchAgent := ⟨true, "i-0abc"⟩
        CloudWatchLogs := ⟨true, ["/svc/app-a"]⟩
        WAF := ⟨true, "acl-id", "acl*name"⟩
        DynamoDB := ⟨true, ["t1"]⟩
        RDS := ⟨true, "db-cluster-1", ""⟩ } }

/-- A bag in which no payload has the shape its kind expects. -/
def wrongShapeBag : GoMap (GoAny Milli) :=
  [ ("ec2", GoAny.other), ("cloudwatchAgent", GoAny.intMap []), ("s3", GoAny.other),
    ("alb", GoAny.anyMap []), ("cloudfront", GoAny.other), ("dynamodb", GoAny.float64Map []),
    ("rds", GoAny.other), ("waf", GoAny.other), ("cloudwatchLogs", GoAny.other) ]

/-- The bag has, under `key`, a payload that is not a flat metric mapping. -/
def flatMismatch {F : Type} (allMetrics : GoMap (GoAny F)) (key : String) : Prop :=
  ∃ d, GoMap.get? allMetrics key = some d ∧ d.toFloat64Map = none

/-- The bag has, under `"dynamodb"`, a payload that is not a nested mapping,
or one in which the entry of a configured table is not a flat metric
mapping. -/
def dynamodbMismatch {F : Type} (cfg : Config) (allMetrics : GoMap (GoAny F)) : Prop :=
  ∃ d, GoMap.get? allMetrics "dynamodb" = some d ∧
    (d.toAnyMap = none ∨
      ∃ allTables, d.toAnyMap = some allTables ∧
        ∃ table ∈ cfg.Services.DynamoDB.TableNames, ∃ td,
          GoMap.get? allTables table = some td ∧ td.toFloat64Map = none)

/-- The bag has, under `"cloudwatchLogs"`, a payload that is not a nested
mapping, or one in which the entry of a configured log group is not a count
mapping. -/
def cloudwatchLogsMismatch {F : Type} (cfg : Config) (allMetrics : GoMap (GoAny F)) : Prop :=
  ∃ d, GoMap.get? allMetrics "cloudwatchLogs" = some d ∧
    (d.toAnyMap = none ∨
      ∃ logsMetrics, d.toAnyMap = some logsMetrics ∧
        ∃ name ∈ cfg.Services.CloudWatchLogs.LogGroupNames, ∃ data,
          GoMap.get? logsMetrics name = some data ∧ data.toIntMap = none)

/-- Some payload that `BuildMessage` reads has the wrong shape: the payload
of an enabled kind (of S3 on a daily report only), the inner payloads of the
nested kinds being those of the configured names. -/
def ShapeMismatch {F : Type} (cfg : Config) (timeParams : TimeParams)
    (allMetrics : GoMap (GoAny F)) : Prop :=
  (cfg.Services.EC2.Enabled = true ∧ flatMismatch allMetrics "ec2") ∨
  (cfg.Services.CloudWatchAgent.Enabled = true ∧ flatMismatch allMetrics "cloudwatchAgent") ∨
  (cfg.Services.S3.Enabled = true ∧ timeParams.IsDailyReport = true ∧
    flatMismatch allMetrics "s3") ∨
  (cfg.Services.ALB.Enabled = true ∧ flatMismatch allMetrics "alb") ∨
  (cfg.Services.CloudFront.Enabled = true ∧ flatMismatch allMetrics "cloudfront") ∨
  (cfg.Services.DynamoDB.Enabled = true ∧ dynamodbMismatch cfg allMetrics) ∨
  (cfg.Services.RDS.Enabled = true ∧ flatMismatch allMetrics "rds") ∨
  (cfg.Services.WAF.Enabled = true ∧ flatMismatch allMetrics "waf") ∨
  (cfg.Services.CloudWatchLogs.Enabled = true ∧ cloudwatchLogsMismatch cfg allMetrics)

/-- A bag whose `"s3"` payload is not a flat metric mapping. -/
def s3WrongShapeBag : GoMap (GoAny Milli) := [("s3", GoAny.other)]

/-- A bag whose `"dynamodb"` payload is nested, with a flat mapping for the
configured table `t1` and a payload of another shape for a table `t9` that
is not configured. -/
def dynamoStrayBag : GoMap (GoAny Milli) :=
  [("dynamodb", GoAny.anyMap
    [("t9", GoAny.other), ("t1", GoAny.float64Map [("RequestCount", ⟨42000⟩)])])]

/-- The written strings end with a blank separator line: the last content
line, closed by the newline token, and then one more newline token. -/
def endsWithBlankLine (r : renderer) (ws : List String) : Prop :=
  ∃ before line, ws = before ++ [line ++ r.nl, r.nl]

/-- The string is a line closed by the newline token. -/
def isLine (r : renderer) (w : String) : Prop := ∃ line, w = line ++ r.nl

/-- EC2 enabled for the instance `i-0abc`, and nothing else. -/
def ec2Config : Config :=
  { baseConfig 7 6 with
    Services := { (baseConfig 7 6).Services with EC2 := ⟨true, "i-0abc"⟩ } }

/-- A bag with an `"ec2"` entry. -/
def ec2Bag : GoMap (GoAny Milli) :=
  [("ec2", GoAny.float64Map [("CPUUtilization_Average", ⟨12500⟩), ("NetworkIn", ⟨3000⟩)])]

/-- The configuration with another EC2 instance identifier. -/
def withEC2InstanceID (cfg : Config) (ident : String) : Config :=
  { cfg with Services := { cfg.Services with EC2 := { cfg.Services.EC2 with InstanceID := ident } } }

/-- The labels that `BuildMessage` writes in bold. -/
def boldLabels : List String :=
  ["EC2", "S3", "ALB", "CloudFront", "DynamoDB", "RDS", "WAF", "APPLICATION", "LAMBDA"]

/-! ### The aggregation period (`services/waf.go`) -/

/-- The constant `maxDuration` of the `time` package. -/
def maxDuration : Duration := 9223372036854775807

/-- The constant `minDuration` of the `time` package. -/
def minDuration : Duration := -9223372036854775808

/-- The method `Time.Sub`: the duration `t - u`, or the largest (smallest)
duration when the difference is too large (too small) for a
`time.Duration`. -/
def Time.Sub (t u : Time) : Duration :=
  let d := t.unixNano - u.unixNano
  if d > maxDuration then maxDuration
  else if d < minDuration then minDuration
  else d

/-- The zero value of `time.Time`, 0001-01-01 00:00:00 UTC: what a lookup of
a missing key in a `map[string]time.Time` gives. -/
def zeroTime : Time := ⟨-62135596800 * 1000000000⟩

/-- The choice of the CloudWatch period in `WAFMetrics` (waf.go, lines
57-61), in seconds, from the map `timeParams` that the function receives. -/
def WAFMetrics_period (timeParams : GoMap Time) : Int :=
  let period : Int := 3600
  if (timeParams.getD "endTime" zeroTime).Sub (timeParams.getD "startTime" zeroTime) ≥
      Duration.mul 24 Hour then
    86400
  else
    period

/-- Modelled from the spec: the caller of `WAFMetrics`, which is not among
the sources, hands the selected window to the metrics collectors ("its
output (window + isDaily flag) is passed both to the metrics-fetching
collaborators and to ReportRenderer"); the map it builds holds the start and
the end of the window under the two keys that `WAFMetrics` reads. -/
def timeParamsMap (tp : TimeParams) : GoMap Time :=
  [("startTime", tp.StartTime), ("endTime", tp.EndTime)]

/-- An integer in the range of `int64` is stored unchanged. -/
theorem wrapInt64_of_range (x : Int) (hlo : -9223372036854775808 ≤ x)
    (hhi : x ≤ 9223372036854775807) : wrapInt64 x = x := by
  unfold wrapInt64
  norm_num
  omega

/-- The daily window is 24 hours long: `-24 * time.Hour` does not overflow. -/
theorem dailyOffset_eq : Duration.mul (-24) Hour = -86400000000000 := by
  decide

/-- The hour of the day and the formatted time at some instants, one of them
before the epoch and one on a leap day. -/
theorem Time_samples :
    sampleNow.Hour = 7 ∧ sampleNow.Format = "05/03/2024 07:08:09" ∧
    (Time.mk (-1)).Hour = 23 ∧ (Time.mk (-1)).Format = "31/12/1969 23:59:59" ∧
    (Time.mk (951782400 * 1000000000)).Format = "29/02/2000 00:00:00" := by
  decide

/-- The sample number type prints 120.5 with two digits as `120.50`. -/
theorem Milli_format_samples :
    Milli.format 2 ⟨120500⟩ = "120.50" ∧ Milli.format 0 ⟨2500⟩ = "2" ∧
    Milli.format 0 ⟨3500⟩ = "4" ∧ Milli.format 3 ⟨-1⟩ = "-0.001" := by
  decide

/-- The interval offset `-time.Duration(p) * time.Hour` is `p` hours back as
long as `p` hours fit a `time.Duration`. -/
theorem intervalOffset_eq (p : Int) (hp : 0 < p) (hmax : p ≤ 2562047) :
    Duration.mul (Duration.neg (Duration.ofInt p)) Hour = -(p * 3600000000000) := by
  unfold Duration.mul Duration.neg Duration.ofInt Hour
  rw [wrapInt64_of_range p (by omega) (by omega), wrapInt64_of_range (-p) (by omega) (by omega),
    wrapInt64_of_range _ (by omega) (by omega)]
  ring

/-- C1. Window selection, daily case: at an instant whose UTC hour of the day
equals the configured daily-report hour (a value in 0..23), `GetTimeParams`
succeeds with `IsDailyReport = true`, `StartTime` 24 hours before the instant
and `EndTime` the instant itself, in UTC. -/
theorem GetTimeParams_daily (c : Config) (now : Time)
    (hrange : 0 ≤ c.Global.Monitoring.DailyReportHourUTC ∧
      c.Global.Monitoring.DailyReportHourUTC ≤ 23)
    (hhour : now.Hour = c.Global.Monitoring.DailyReportHourUTC) :
    c.GetTimeParams now = Except.ok
      { StartTime := ⟨now.unixNano - 24 * 3600 * 1000000000⟩
        EndTime := now
        IsDailyReport := true
        Location := Location.UTC } := by
  have _ := hrange
  unfold Config.GetTimeParams
  simp only [hhour, decide_True, if_true, dailyOffset_eq, Time.Add]
  norm_num
  rfl

/-- C1, at 2024-03-05 07:08:09 UTC with the daily report at hour 7. -/
theorem GetTimeParams_daily_witness :
    (baseConfig 7 1).GetTimeParams sampleNow = Except.ok
      { StartTime := ⟨sampleNow.unixNano - 24 * 3600 * 1000000000⟩
        EndTime := sampleNow
        IsDailyReport := true
        Location := Location.UTC } :=
  GetTimeParams_daily (baseConfig 7 1) sampleNow (by decide) (by decide)

/-- C2 as stated fails: with a default period of 2562048 hours the product
`-time.Duration(p) * time.Hour` overflows `int64`, and the window starts
after the instant instead of 2562048 hours before it. -/
theorem GetTimeParams_interval_overflow :
    (0 : Int) < 2562048 ∧ sampleNow.Hour ≠ 0 ∧
    (baseConfig 0 2562048).GetTimeParams sampleNow = Except.ok
      { StartTime := ⟨sampleNow.unixNano + 9223371273709551616⟩
        EndTime := sampleNow
        IsDailyReport := false
        Location := Location.UTC } ∧
    (baseConfig 0 2562048).GetTimeParams sampleNow ≠ Except.ok
      { StartTime := ⟨sampleNow.unixNano - 2562048 * 3600 * 1000000000⟩
        EndTime := sampleNow
        IsDailyReport := false
        Location := Location.UTC } := by
  decide

/-- C2 (amended). Window selection, interval case: at an instant whose UTC
hour of the day differs from the configured daily-report hour, and for a
default period `p` with `0 < p ≤ 2562047` hours (the periods that fit a
`time.Duration`), `GetTimeParams` succeeds with `IsDailyReport = false`,
`StartTime` `p` hours before the instant and `EndTime` the instant itself. -/
theorem GetTimeParams_interval (c : Config) (now : Time)
    (hhour : now.Hour ≠ c.Global.Monitoring.DailyReportHourUTC)
    (hp : 0 < c.Global.Monitoring.DefaultPeriod)
    (hmax : c.Global.Monitoring.DefaultPeriod ≤ 2562047) :
    c.GetTimeParams now = Except.ok
      { StartTime := ⟨now.unixNano - c.Global.Monitoring.DefaultPeriod * 3600 * 1000000000⟩
        EndTime := now
        IsDailyReport := false
        Location := Location.UTC } := by
  unfold Config.GetTimeParams
  simp only [hhour, decide_False, intervalOffset_eq _ hp hmax, Time.Add]
  simp only [Bool.false_eq_true, if_false]
  congr 3
  ring

/-- C2 (amended), at 2024-03-05 07:08:09 UTC with the daily report at hour 0
and a default period of 6 hours. -/
theorem GetTimeParams_interval_witness :
    (baseConfig 0 6).GetTimeParams sampleNow = Except.ok
      { StartTime := ⟨sampleNow.unixNano - 6 * 3600 * 1000000000⟩
        EndTime := sampleNow
        IsDailyReport := false
        Location := Location.UTC } :=
  GetTimeParams_interval (baseConfig 0 6) sampleNow (by decide) (by decide) (by decide)

/-! ## Properties of the validator and of the window it guards -/

/-- A check of the validator followed by the rest: the error when the check
fails, the rest otherwise. -/
theorem ite_throw_bind {c : Prop} [Decidable c] (e : String) (k : PUnit → Except String Unit) :
    (if c then (throw e : Except String PUnit) >>= k else pure PUnit.unit >>= k) =
      if c then Except.error e else k PUnit.unit := by
  split <;> rfl

/-- A step of the validator that does nothing. -/
theorem pure_bind_unit (k : PUnit → Except String Unit) :
    ((pure PUnit.unit : Except String PUnit) >>= k) = k PUnit.unit := rfl

/-- An error is not the result `nil`. -/
theorem error_eq_ok (e : String) :
    (Except.error e : Except String Unit) = Except.ok () ↔ False := by
  simp

/-- A conditional gives the result `nil` through one of its two branches. -/
theorem ite_eq_ok {c : Prop} [Decidable c] (x y : Except String Unit) :
    (if c then x else y) = Except.ok () ↔ (c ∧ x = Except.ok ()) ∨ (¬ c ∧ y = Except.ok ()) := by
  split <;> simp [*]

/-- A configuration that the validator accepts has its daily-report hour in
0..23 and a positive default period. -/
theorem validateConfig_ok_monitoring (c : Config) (h : validateConfig c = Except.ok ()) :
    0 ≤ c.Global.Monitoring.DailyReportHourUTC ∧ c.Global.Monitoring.DailyReportHourUTC ≤ 23 ∧
    0 < c.Global.Monitoring.DefaultPeriod := by
  unfold validateConfig at h
  simp only [↓ite_throw_bind, ↓pure_bind_unit] at h
  simp only [ite_eq_ok, error_eq_ok, and_false, false_or] at h
  rcases h with ⟨_, _, _, _, _, _, _, _, h1, h2, _⟩ | ⟨_, _, _, _, h1, h2, _⟩ <;> omega

/-- C12 as stated fails: with the daily-report hour 24 and the default period
0, and with the hour -1 and the period -5, `GetTimeParams` returns a window
and no error; the first window is empty and the second starts five hours
after it ends. -/
theorem GetTimeParams_accepts_bad_parameters :
    (baseConfig 24 0).GetTimeParams sampleNow = Except.ok
      { StartTime := sampleNow
        EndTime := sampleNow
        IsDailyReport := false
        Location := Location.UTC } ∧
    (baseConfig (-1) (-5)).GetTimeParams sampleNow = Except.ok
      { StartTime := ⟨sampleNow.unixNano + 5 * 3600 * 1000000000⟩
        EndTime := sampleNow
        IsDailyReport := false
        Location := Location.UTC } := by
  decide

/-- C12 (amended). Bad parameters are rejected when the configuration is
loaded, not by the window selector: `GetTimeParams` returns a window and no
error for every configuration and instant, and `validateConfig` fails with an
error when the daily-report hour is outside 0..23 or the default period is
not positive. -/
theorem GetTimeParams_never_fails (c : Config) (now : Time) :
    (∃ tp, c.GetTimeParams now = Except.ok tp) ∧
    ((c.Global.Monitoring.DailyReportHourUTC < 0 ∨ c.Global.Monitoring.DailyReportHourUTC > 23 ∨
        c.Global.Monitoring.DefaultPeriod ≤ 0) →
      ∃ e, validateConfig c = Except.error e) := by
  refine ⟨⟨_, rfl⟩, ?_⟩
  intro hbad
  cases hv : validateConfig c with
  | error e => exact ⟨e, rfl⟩
  | ok u =>
    have h := validateConfig_ok_monitoring c hv
    omega

/-- C12 (amended), for the daily-report hour 24 and the default period 0. -/
theorem GetTimeParams_never_fails_witness :
    (∃ tp, (baseConfig 24 0).GetTimeParams sampleNow = Except.ok tp) ∧
    ∃ e, validateConfig (baseConfig 24 0) = Except.error e :=
  ⟨(GetTimeParams_never_fails (baseConfig 24 0) sampleNow).1,
    (GetTimeParams_never_fails (baseConfig 24 0) sampleNow).2 (by decide)⟩

/-- C20 as stated fails: the validator accepts a default period of 2562048
hours, for which the offset overflows `int64` and the window starts after it
ends. -/
theorem GetTimeParams_window_reversed :
    validateConfig (baseConfig 0 2562048) = Except.ok () ∧
    (baseConfig 0 2562048).GetTimeParams sampleNow = Except.ok
      { StartTime := ⟨sampleNow.unixNano + 9223371273709551616⟩
        EndTime := sampleNow
        IsDailyReport := false
        Location := Location.UTC } ∧
    ¬ (Time.mk (sampleNow.unixNano + 9223371273709551616)).Before sampleNow := by
  decide

/-- C20 (amended). Window invariant: for every configuration accepted by
`validateConfig` and every instant at which the report is the daily one or
the default period is at most 2562047 hours, `GetTimeParams` returns a window
with `StartTime` before `EndTime`. -/
theorem GetTimeParams_window_ordered (c : Config) (now : Time)
    (hvalid : validateConfig c = Except.ok ())
    (hfits : now.Hour = c.Global.Monitoring.DailyReportHourUTC ∨
      c.Global.Monitoring.DefaultPeriod ≤ 2562047) :
    ∃ tp, c.GetTimeParams now = Except.ok tp ∧ tp.StartTime.Before tp.EndTime := by
  obtain ⟨_, _, hp⟩ := validateConfig_ok_monitoring c hvalid
  refine ⟨_, rfl, ?_⟩
  by_cases hhour : now.Hour = c.Global.Monitoring.DailyReportHourUTC
  · simp only [hhour, decide_True, if_true, dailyOffset_eq, Time.Add, Time.Before]
    omega
  · have hmax : c.Global.Monitoring.DefaultPeriod ≤ 2562047 := by
      rcases hfits with h | h
      · exact absurd h hhour
      · exact h
    simp only [hhour, decide_False, Bool.false_eq_true, if_false, intervalOffset_eq _ hp hmax,
      Time.Add, Time.Before]
    omega

/-- C20 (amended), at 2024-03-05 07:08:09 UTC with the daily report at hour 0
and a default period of 6 hours. -/
theorem GetTimeParams_window_ordered_witness :
    ∃ tp, (baseConfig 0 6).GetTimeParams sampleNow = Except.ok tp ∧
      tp.StartTime.Before tp.EndTime :=
  GetTimeParams_window_ordered (baseConfig 0 6) sampleNow (by decide) (Or.inr (by decide))
/-! ## Properties of the two escape functions -/

/-- The two passes of `escapeMarkdown` amount to one pass of the character
map of the specification. -/
theorem escapeMarkdown_eq_spec (s : String) : escapeMarkdown s = escapeMarkdownSpec s := by
  unfold escapeMarkdown escapeMarkdownSpec replaceAllChar
  simp only [List.flatMap_assoc]
  congr 1
  apply List.flatMap_congr
  intro c _
  unfold escapeMarkdownCharSpec
  by_cases h1 : c = '_'
  · subst h1; simp
  · by_cases h2 : c = '*'
    · subst h2; simp
    · simp [h1, h2]

/-- In a concatenation of images of the character map, a `_` or `*` comes
right after a backslash. -/
theorem escapeMarkdownCharSpec_preceded (l : List Char) :
    ∀ (pre : List Char) (c : Char) (post : List Char),
      l.flatMap escapeMarkdownCharSpec = pre ++ c :: post → (c = '_' ∨ c = '*') →
      ∃ pre2, pre = pre2 ++ ['\\'] := by
  induction l with
  | nil => intro pre c post h; simp at h
  | cons a l ih =>
    intro pre c post h hc
    rw [List.flatMap_cons] at h
    unfold escapeMarkdownCharSpec at h
    by_cases h1 : a = '_'
    · rw [if_pos h1] at h
      rcases pre with _ | ⟨x, _ | ⟨y, pre⟩⟩
      · simp at h
        rcases hc with hc | hc <;> · rw [hc] at h; exact absurd h.1 (by decide)
      · simp at h
        exact ⟨[], by simp [h.1.symm]⟩
      · simp at h
        obtain ⟨p, hp⟩ := ih pre c post h.2.2 hc
        exact ⟨x :: y :: p, by simp [hp]⟩
    · rw [if_neg h1] at h
      by_cases h2 : a = '*'
      · rw [if_pos h2] at h
        rcases pre with _ | ⟨x, _ | ⟨y, pre⟩⟩
        · simp at h
          rcases hc with hc | hc <;> · rw [hc] at h; exact absurd h.1 (by decide)
        · simp at h
          exact ⟨[], by simp [h.1.symm]⟩
        · simp at h
          obtain ⟨p, hp⟩ := ih pre c post h.2.2 hc
          exact ⟨x :: y :: p, by simp [hp]⟩
      · rw [if_neg h2] at h
        rcases pre with _ | ⟨x, pre⟩
        · simp at h
          rcases hc with hc | hc
          · exact absurd (h.1.trans hc) h1
          · exact absurd (h.1.trans hc) h2
        · simp at h
          obtain ⟨p, hp⟩ := ih pre c post h.2 hc
          exact ⟨x :: p, by simp [hp]⟩

/-- C5. Telegram escape: `escapeMarkdown s` is `s` with each `_` replaced by
`\_`, each `*` replaced by `\*` and every other character unchanged, in
order; and every `_` or `*` of the result comes right after a backslash. -/
theorem escapeMarkdown_correct (s : String) :
    escapeMarkdown s = escapeMarkdownSpec s ∧
    ∀ (pre : List Char) (c : Char) (post : List Char),
      (escapeMarkdown s).data = pre ++ c :: post → (c = '_' ∨ c = '*') →
      ∃ pre2, pre = pre2 ++ ['\\'] := by
  refine ⟨escapeMarkdown_eq_spec s, ?_⟩
  intro pre c post h hc
  rw [escapeMarkdown_eq_spec] at h
  exact escapeMarkdownCharSpec_preceded s.data pre c post h hc

set_option maxRecDepth 100000
set_option maxHeartbeats 1000000

/-- Deleting a key leaves the lookups of the other keys unchanged. -/
theorem GoMap.get?_delete_ne {V : Type} (m : GoMap V) (k k2 : String) (h : k ≠ k2) :
    (GoMap.delete m k2).get? k = GoMap.get? m k := by
  induction m with
  | nil => rfl
  | cons e m ih =>
    obtain ⟨a, b⟩ := e
    unfold GoMap.delete GoMap.get? at *
    by_cases ha : a = k2
    · subst ha
      have hk : (k == a) = false := by simpa using h
      simp only [ne_eq, not_true_eq_false, decide_False, Bool.false_eq_true, not_false_eq_true,
        List.filter_cons_of_neg, List.lookup_cons, hk]
      exact ih
    · simp only [ne_eq, ha, not_false_eq_true, decide_True, List.filter_cons_of_pos,
        List.lookup_cons]
      cases hka : (k == a)
      · exact ih
      · rfl

/-- The lookup of a deleted key finds nothing. -/
theorem GoMap.get?_delete_self {V : Type} (m : GoMap V) (k : String) :
    (GoMap.delete m k).get? k = none := by
  induction m with
  | nil => rfl
  | cons e m ih =>
    obtain ⟨a, b⟩ := e
    unfold GoMap.delete GoMap.get? at *
    by_cases ha : a = k
    · subst ha
      simpa using ih
    · have hk : (k == a) = false := by simpa using fun h : k = a => ha h.symm
      simp only [ne_eq, ha, not_false_eq_true, decide_True, List.filter_cons_of_pos,
        List.lookup_cons, hk]
      exact ih

/-- C3. S3 is daily-only: when `IsDailyReport` is false the S3 block writes
nothing, whatever the S3 switch and the `"s3"` entry of the bag are, and the
result of `BuildMessage` (a report or a panic) is the result obtained with S3
switched off and the `"s3"` entry deleted from the bag. -/
theorem BuildMessage_s3_daily_only {F : Type} [Float64 F] (ro : RangeOrder (GoAny F))
    (cfg : Config) (timeParams : TimeParams) (allMetrics : GoMap (GoAny F)) (forEmail : Bool)
    (hdaily : timeParams.IsDailyReport = false) :
    s3Writes (selectRenderer forEmail) cfg timeParams allMetrics = some [] ∧
    (GoMap.delete allMetrics "s3").get? "s3" = none ∧
    BuildMessage ro cfg timeParams allMetrics forEmail =
      BuildMessage ro (disableS3 cfg) timeParams (GoMap.delete allMetrics "s3") forEmail := by
  have hk : ∀ k, k ≠ "s3" → (GoMap.delete allMetrics "s3").get? k = GoMap.get? allMetrics k :=
    fun k h => GoMap.get?_delete_ne allMetrics k "s3" h
  refine ⟨?_, GoMap.get?_delete_self allMetrics "s3", ?_⟩
  · simp [s3Writes, hdaily]
  · simp only [BuildMessage, BuildMessageWrites, ec2Writes, cloudwatchAgentWrites, s3Writes,
      albWrites, cloudfrontWrites, dynamodbWrites, rdsWrites, wafWrites, cloudwatchLogsWrites,
      rdsHeader, rdsInstanceWrites, rdsClusterWrites,
      disableS3, hdaily, hk "ec2" (by decide), hk "cloudwatchAgent" (by decide),
      hk "alb" (by decide), hk "cloudfront" (by decide), hk "dynamodb" (by decide),
      hk "rds" (by decide), hk "waf" (by decide), hk "cloudwatchLogs" (by decide),
      Bool.and_false, Bool.false_and, Bool.false_eq_true, if_false]

/-- C3, on an interval report with S3 enabled and an `"s3"` entry in the
bag. -/
theorem BuildMessage_s3_daily_only_witness :
    s3Writes (selectRenderer false) s3Config intervalParams s3Bag = some [] ∧
    (GoMap.delete s3Bag "s3").get? "s3" = none ∧
    BuildMessage (RangeOrder.inOrder _) s3Config intervalParams s3Bag false =
      BuildMessage (RangeOrder.inOrder _) (disableS3 s3Config) intervalParams
        (GoMap.delete s3Bag "s3") false :=
  BuildMessage_s3_daily_only (RangeOrder.inOrder _) s3Config intervalParams s3Bag false rfl

/-- The interval report for the bucket `my_bucket`: no S3 section. -/
theorem BuildMessage_s3_interval_sample :
    BuildMessage (RangeOrder.inOrder _) s3Config intervalParams s3Bag false =
      some "\n- - - - - - - - - - - - - - -\n\n05/03/2024 07:08:09\n\n\n- - - - - - - - - - - - - - -\n\n" := by
  decide

/-- The daily report for the bucket `my_bucket`: the S3 section is there. -/
theorem BuildMessage_s3_daily_sample :
    BuildMessage (RangeOrder.inOrder _) s3Config dailyParams s3Bag false =
      some ("\n= = = = = = = = = = = = = = =\n\n05/03/2024 07:08:09\n\n" ++
        "*S3* my\\_bucket\nSize: 12.34 MB\nRequests: 7\n4xx Errors: 0\n5xx Errors: 0\n\n" ++
        "\n= = = = = = = = = = = = = = =\n\n") := by
  decide

/-- C4 fails on the code: with two log groups in the `APPLICATION` bucket the
report depends on the order in which `range` visits the local map, an order
that Go leaves unspecified; visiting in insertion order and in reverse order
give two different reports for the same input. -/
theorem BuildMessage_depends_on_range_order :
    BuildMessage (RangeOrder.inOrder _) twoAppLogsConfig intervalParams twoAppLogsBag false =
      some ("\n- - - - - - - - - - - - - - -\n\n05/03/2024 07:08:09\n\n" ++
        "*APPLICATION*\n/svc/app-a:\nINFO: 3\nWARN: 0\nERROR: 1\n\n" ++
        "/svc/app-b:\nINFO: 5\nWARN: 2\nERROR: 0\n\n" ++
        "\n- - - - - - - - - - - - - - -\n\n") ∧
    BuildMessage (RangeOrder.reversed _) twoAppLogsConfig intervalParams twoAppLogsBag false =
      some ("\n- - - - - - - - - - - - - - -\n\n05/03/2024 07:08:09\n\n" ++
        "*APPLICATION*\n/svc/app-b:\nINFO: 5\nWARN: 2\nERROR: 0\n\n" ++
        "/svc/app-a:\nINFO: 3\nWARN: 0\nERROR: 1\n\n" ++
        "\n- - - - - - - - - - - - - - -\n\n") ∧
    BuildMessage (RangeOrder.inOrder _) twoAppLogsConfig intervalParams twoAppLogsBag false ≠
      BuildMessage (RangeOrder.reversed _) twoAppLogsConfig intervalParams twoAppLogsBag false := by
  decide

/-- A report is written exactly when none of the nine blocks panics, and is
then the header, the blocks in their order, and the closing separator. -/
theorem BuildMessageWrites_eq_some {F : Type} [Float64 F] (ro : RangeOrder (GoAny F))
    (cfg : Config) (timeParams : TimeParams) (allMetrics : GoMap (GoAny F)) (forEmail : Bool)
    (ws : List String) :
    BuildMessageWrites ro cfg timeParams allMetrics forEmail = some ws ↔
    ∃ ec2, ec2Writes (selectRenderer forEmail) cfg allMetrics = some ec2 ∧
    ∃ agent, cloudwatchAgentWrites (selectRenderer forEmail) cfg allMetrics = some agent ∧
    ∃ s3, s3Writes (selectRenderer forEmail) cfg timeParams allMetrics = some s3 ∧
    ∃ alb, albWrites (selectRenderer forEmail) cfg allMetrics = some alb ∧
    ∃ cloudfront, cloudfrontWrites (selectRenderer forEmail) cfg allMetrics = some cloudfront ∧
    ∃ dynamodb, dynamodbWrites (selectRenderer forEmail) cfg allMetrics = some dynamodb ∧
    ∃ rds, rdsWrites (selectRenderer forEmail) cfg allMetrics = some rds ∧
    ∃ waf, wafWrites (selectRenderer forEmail) cfg allMetrics = some waf ∧
    ∃ logs, cloudwatchLogsWrites ro (selectRenderer forEmail) cfg allMetrics = some logs ∧
      headerWrites (selectRenderer forEmail) timeParams ++ ec2 ++ agent ++ s3 ++ alb ++
        cloudfront ++ dynamodb ++ rds ++ waf ++ logs ++
        [(selectRenderer forEmail).sep timeParams.IsDailyReport] = ws := by
  simp only [BuildMessageWrites, Option.bind_eq_bind, Option.bind_eq_some, Option.pure_def,
    Option.some.injEq]

/-- C7 as stated fails: for the cluster `db-cluster-1` without an instance
identifier the header is `*RDS* Cluster db-cluster-1` in the Telegram markup
and `<strong>RDS</strong> Cluster db-cluster-1` in HTML, and the text
`RDS Cluster db-cluster-1` occurs in neither report. -/
theorem rdsHeader_is_marked_up :
    rdsClusterConfig.Services.RDS.Enabled = true ∧
    rdsHeader tg rdsClusterConfig = "*RDS* Cluster db-cluster-1" ∧
    rdsHeader htmlR rdsClusterConfig = "<strong>RDS</strong> Cluster db-cluster-1" ∧
    BuildMessage (RangeOrder.inOrder _) rdsClusterConfig intervalParams rdsClusterBag false =
      some ("\n- - - - - - - - - - - - - - -\n\n05/03/2024 07:08:09\n\n" ++
        "*RDS* Cluster db-cluster-1\nVolume Size: 120.50 GB\n\n" ++
        "\n- - - - - - - - - - - - - - -\n\n") ∧
    (∀ out, BuildMessage (RangeOrder.inOrder _) rdsClusterConfig intervalParams rdsClusterBag
        false = some out → stringsContains out "RDS Cluster db-cluster-1" = false) ∧
    (∀ out, BuildMessage (RangeOrder.inOrder _) rdsClusterConfig intervalParams rdsClusterBag
        true = some out → stringsContains out "RDS Cluster db-cluster-1" = false) := by
  refine ⟨by decide, by decide, by decide, by decide, ?_, ?_⟩
  · intro out h
    have h2 : some out = _ := h.symm.trans (by decide :
      BuildMessage (RangeOrder.inOrder _) rdsClusterConfig intervalParams rdsClusterBag false =
        some ("\n- - - - - - - - - - - - - - -\n\n05/03/2024 07:08:09\n\n" ++
          "*RDS* Cluster db-cluster-1\nVolume Size: 120.50 GB\n\n" ++
          "\n- - - - - - - - - - - - - - -\n\n"))
    rw [Option.some.inj h2]
    decide
  · intro out h
    have h2 : some out = _ := h.symm.trans (by decide :
      BuildMessage (RangeOrder.inOrder _) rdsClusterConfig intervalParams rdsClusterBag true =
        some ("<html><body style=\"font-family: monospace; white-space: pre-wrap;\">" ++
          "<hr style=\"border:none;border-top:1px solid #ccc;margin:12px 0;\">" ++
          "05/03/2024 07:08:09<br><br>" ++
          "<strong>RDS</strong> Cluster db-cluster-1<br>Volume Size: 120.50 GB<br><br>" ++
          "<hr style=\"border:none;border-top:1px solid #ccc;margin:12px 0;\">" ++
          "</body></html>"))
    rw [Option.some.inj h2]
    decide

/-- C7 (amended). RDS header shape: when RDS is enabled and the bag has an
`"rds"` entry that is a flat metric mapping, the RDS block succeeds and its
first line is the header followed by the newline token, and so is a line of
every report `BuildMessage` writes; the header is `bold("RDS")`, a space,
then: both identifiers non-empty, `esc(cluster) / esc(instance)`; only the
cluster identifier non-empty, `Cluster esc(cluster)`; only the instance
identifier non-empty, `Instance esc(instance)`. -/
theorem rdsWrites_header {F : Type} [Float64 F] (ro : RangeOrder (GoAny F)) (cfg : Config)
    (timeParams : TimeParams) (allMetrics : GoMap (GoAny F)) (forEmail : Bool) (m : GoMap F)
    (hen : cfg.Services.RDS.Enabled = true)
    (hget : GoMap.get? allMetrics "rds" = some (GoAny.float64Map m)) :
    (∃ rest, rdsWrites (selectRenderer forEmail) cfg allMetrics =
      some ((rdsHeader (selectRenderer forEmail) cfg ++ (selectRenderer forEmail).nl) :: rest)) ∧
    (∀ ws, BuildMessageWrites ro cfg timeParams allMetrics forEmail = some ws →
      (rdsHeader (selectRenderer forEmail) cfg ++ (selectRenderer forEmail).nl) ∈ ws) ∧
    (cfg.Services.RDS.ClusterID ≠ "" → cfg.Services.RDS.DBInstanceIdentifier ≠ "" →
      rdsHeader (selectRenderer forEmail) cfg =
        (selectRenderer forEmail).bold "RDS" ++ " " ++
          (selectRenderer forEmail).esc cfg.Services.RDS.ClusterID ++ " / " ++
          (selectRenderer forEmail).esc cfg.Services.RDS.DBInstanceIdentifier) ∧
    (cfg.Services.RDS.ClusterID ≠ "" → cfg.Services.RDS.DBInstanceIdentifier = "" →
      rdsHeader (selectRenderer forEmail) cfg =
        (selectRenderer forEmail).bold "RDS" ++ " Cluster " ++
          (selectRenderer forEmail).esc cfg.Services.RDS.ClusterID) ∧
    (cfg.Services.RDS.ClusterID = "" → cfg.Services.RDS.DBInstanceIdentifier ≠ "" →
      rdsHeader (selectRenderer forEmail) cfg =
        (selectRenderer forEmail).bold "RDS" ++ " Instance " ++
          (selectRenderer forEmail).esc cfg.Services.RDS.DBInstanceIdentifier) := by
  have hw : rdsWrites (selectRenderer forEmail) cfg allMetrics =
      some ((rdsHeader (selectRenderer forEmail) cfg ++ (selectRenderer forEmail).nl) ::
        (rdsInstanceWrites (selectRenderer forEmail) cfg m ++
          rdsClusterWrites (selectRenderer forEmail) cfg m ++ [(selectRenderer forEmail).nl])) := by
    simp [rdsWrites, hen, hget, GoAny.toFloat64Map]
  refine ⟨⟨_, hw⟩, ?_, ?_, ?_, ?_⟩
  · intro ws h
    rw [BuildMessageWrites_eq_some] at h
    obtain ⟨_, _, _, _, _, _, _, _, _, _, _, _, rds, hrds, _, _, _, _, hws⟩ := h
    rw [hw] at hrds
    rw [← hws, ← Option.some.inj hrds]
    simp
  · intro hc hi
    simp [rdsHeader, hc, hi]
  · intro hc hi
    simp [rdsHeader, hc, hi]
  · intro hc hi
    simp [rdsHeader, hc, hi]

/-- C7 (amended), for the cluster `db-cluster-1` without an instance
identifier, in the Telegram markup: the header is `*RDS* Cluster db-cluster-1`. -/
theorem rdsWrites_header_witness :
    (selectRenderer false).bold "RDS" ++ " Cluster " ++
      (selectRenderer false).esc rdsClusterConfig.Services.RDS.ClusterID =
      "*RDS* Cluster db-cluster-1" ∧
    rdsHeader (selectRenderer false) rdsClusterConfig =
      (selectRenderer false).bold "RDS" ++ " Cluster " ++
        (selectRenderer false).esc rdsClusterConfig.Services.RDS.ClusterID :=
  ⟨by decide,
    (rdsWrites_header (RangeOrder.inOrder _) rdsClusterConfig intervalParams rdsClusterBag false
      [ ("Cluster_VolumeBytesUsed", ⟨120500⟩),
        ("Instance_CPUUtilization_Average", ⟨50000⟩),
        ("Instance_FreeableMemory", ⟨2000⟩) ] rfl rfl).2.2.2.1 (by decide) (by decide)⟩

/-- A line of a concatenation is a line of one of the two parts. -/
theorem hasLine_append (a b : List String) (label : String) :
    hasLine (a ++ b) label ↔ hasLine a label ∨ hasLine b label := by
  simp only [hasLine, List.mem_append]
  constructor
  · rintro ⟨w, hw | hw, hp⟩
    · exact Or.inl ⟨w, hw, hp⟩
    · exact Or.inr ⟨w, hw, hp⟩
  · rintro (⟨w, hw, hp⟩ | ⟨w, hw, hp⟩)
    · exact ⟨w, Or.inl hw, hp⟩
    · exact ⟨w, Or.inr hw, hp⟩

/-- A line of a list is its first string or a line of the rest. -/
theorem hasLine_cons (w : String) (ws : List String) (label : String) :
    hasLine (w :: ws) label ↔ label.data <+: w.data ∨ hasLine ws label := by
  simp [hasLine]

/-- Nothing is a line of the empty list. -/
theorem hasLine_nil (label : String) : hasLine [] label ↔ False := by
  simp [hasLine]

/-- The line of a single written string. -/
theorem hasLine_singleton (w label : String) : hasLine [w] label ↔ label.data <+: w.data := by
  simp [hasLine]

/-- A keyed line of the RDS block is present exactly when its key is. -/
theorem hasLine_rdsLine {F : Type} [Float64 F] (r : renderer) (m : GoMap F)
    (key before : String) (prec : Nat) (after label : String) :
    hasLine (rdsLine r m key before prec after) label ↔
      ∃ v, GoMap.get? m key = some v ∧
        label.data <+: before.data ++ (fmtF prec v ++ after ++ r.nl).data := by
  unfold rdsLine
  cases h : GoMap.get? m key with
  | none => simp [hasLine]
  | some v => simp [hasLine]

/-- The CPU line of the RDS block: nothing when the key of the average is
missing, one string that begins with `CPU: ` otherwise. -/
theorem rdsCPULine_shape {F : Type} [Float64 F] (r : renderer) (m : GoMap F) :
    (GoMap.get? m "Instance_CPUUtilization_Average" = none ∧ rdsCPULine r m = []) ∨
    ∃ v t, GoMap.get? m "Instance_CPUUtilization_Average" = some v ∧
      rdsCPULine r m = ["CPU: " ++ t] := by
  unfold rdsCPULine
  cases h : GoMap.get? m "Instance_CPUUtilization_Average" with
  | none => exact Or.inl ⟨rfl, rfl⟩
  | some v =>
    refine Or.inr ⟨v, ?_⟩
    cases h2 : GoMap.get? m "Instance_CPUUtilization_Maximum" with
    | none => exact ⟨fmtF 2 v ++ "% (avg)" ++ r.nl, rfl, by simp [String.append_assoc]⟩
    | some v2 =>
      exact ⟨fmtF 2 v ++ "% (avg)" ++ (", " ++ fmtF 2 v2 ++ "% (max)") ++ r.nl, rfl,
        by simp [String.append_assoc]⟩

/-- The RDS block when it is enabled and its entry is a flat mapping. -/
theorem rdsWrites_eq {F : Type} [Float64 F] (r : renderer) (cfg : Config)
    (allMetrics : GoMap (GoAny F)) (m : GoMap F)
    (hen : cfg.Services.RDS.Enabled = true)
    (hget : GoMap.get? allMetrics "rds" = some (GoAny.float64Map m)) :
    rdsWrites r cfg allMetrics =
      some ([rdsHeader r cfg ++ r.nl] ++ rdsInstanceWrites r cfg m ++ rdsClusterWrites r cfg m ++
        [r.nl]) := by
  simp [rdsWrites, hen, hget, GoAny.toFloat64Map]

/-- The header line of the RDS block begins with the bold marker of the
dialect: with `*` in the Telegram markup and with `<` in HTML. -/
theorem rdsHeader_not_label (forEmail : Bool) (cfg : Config) (label : String)
    (hl : ∃ c t, label.data = c :: t ∧ c ≠ '*' ∧ c ≠ '<') :
    ¬ label.data <+: (rdsHeader (selectRenderer forEmail) cfg ++
      (selectRenderer forEmail).nl).data := by
  obtain ⟨c, t, hlabel, h1, h2⟩ := hl
  rw [hlabel]
  unfold rdsHeader
  cases forEmail <;> split_ifs <;>
    simp [selectRenderer, tg, htmlR, List.cons_prefix_cons, h1, h2]

/-- The newline token of a dialect is a line feed or `<br>`. -/
theorem nl_not_label (forEmail : Bool) (label : String)
    (hl : ∃ c t, label.data = c :: t ∧ c ≠ '\n' ∧ c ≠ '<') :
    ¬ label.data <+: ((selectRenderer forEmail).nl).data := by
  obtain ⟨c, t, hlabel, h1, h2⟩ := hl
  rw [hlabel]
  cases forEmail <;> simp [selectRenderer, tg, htmlR, List.cons_prefix_cons, h1, h2]

/-- Among the instance-scoped strings of the RDS block, a line of the
specification's list of instance-scoped lines is present exactly when the
instance identifier is non-empty and the key of the line is in the mapping. -/
theorem rdsInstanceWrites_instanceLines {F : Type} [Float64 F] (r : renderer) (cfg : Config)
    (m : GoMap F) :
    ∀ p ∈ rdsInstanceLines, hasLine (rdsInstanceWrites r cfg m) p.1 ↔
      (cfg.Services.RDS.DBInstanceIdentifier ≠ "" ∧ ∃ v, GoMap.get? m p.2 = some v) := by
  intro p hp
  simp only [rdsInstanceLines, List.mem_cons, List.mem_singleton, List.not_mem_nil,
    or_false] at hp
  rcases hp with rfl | rfl | rfl | rfl | rfl <;>
  rcases rdsCPULine_shape r m with ⟨hk, hc⟩ | ⟨v, t, hk, hc⟩ <;>
  by_cases hi : cfg.Services.RDS.DBInstanceIdentifier = "" <;>
  simp [hasLine_append, hasLine_cons, hasLine_rdsLine, hasLine_nil, rdsInstanceWrites,
    hc, hk, hi]

/-- None of the cluster-scoped lines is among the instance-scoped strings. -/
theorem rdsInstanceWrites_clusterLines {F : Type} [Float64 F] (r : renderer) (cfg : Config)
    (m : GoMap F) :
    ∀ p ∈ rdsClusterLines, ¬ hasLine (rdsInstanceWrites r cfg m) p.1 := by
  intro p hp
  simp only [rdsClusterLines, List.mem_cons, List.mem_singleton, List.not_mem_nil,
    or_false] at hp
  rcases hp with rfl | rfl | rfl <;>
  rcases rdsCPULine_shape r m with ⟨hk, hc⟩ | ⟨v, t, hk, hc⟩ <;>
  by_cases hi : cfg.Services.RDS.DBInstanceIdentifier = "" <;>
  simp [hasLine_append, hasLine_cons, hasLine_rdsLine, hasLine_nil, rdsInstanceWrites,
    hc, hk, hi]

/-- Among the cluster-scoped strings of the RDS block, a line of the
specification's list of cluster-scoped lines is present exactly when the
cluster identifier is non-empty and the key of the line is in the mapping. -/
theorem rdsClusterWrites_clusterLines {F : Type} [Float64 F] (r : renderer) (cfg : Config)
    (m : GoMap F) :
    ∀ p ∈ rdsClusterLines, hasLine (rdsClusterWrites r cfg m) p.1 ↔
      (cfg.Services.RDS.ClusterID ≠ "" ∧ ∃ v, GoMap.get? m p.2 = some v) := by
  intro p hp
  simp only [rdsClusterLines, List.mem_cons, List.mem_singleton, List.not_mem_nil,
    or_false] at hp
  rcases hp with rfl | rfl | rfl <;>
  by_cases hcl : cfg.Services.RDS.ClusterID = "" <;>
  simp [hasLine_append, hasLine_rdsLine, hasLine_nil, rdsClusterWrites, hcl]

/-- None of the instance-scoped lines is among the cluster-scoped strings. -/
theorem rdsClusterWrites_instanceLines {F : Type} [Float64 F] (r : renderer) (cfg : Config)
    (m : GoMap F) :
    ∀ p ∈ rdsInstanceLines, ¬ hasLine (rdsClusterWrites r cfg m) p.1 := by
  intro p hp
  simp only [rdsInstanceLines, List.mem_cons, List.mem_singleton, List.not_mem_nil,
    or_false] at hp
  rcases hp with rfl | rfl | rfl | rfl | rfl <;>
  by_cases hcl : cfg.Services.RDS.ClusterID = "" <;>
  simp [hasLine_append, hasLine_rdsLine, hasLine_nil, rdsClusterWrites, hcl]

/-- The lines of the specification's two lists begin with a capital letter. -/
theorem rdsLines_head :
    ∀ p ∈ rdsInstanceLines ++ rdsClusterLines,
      ∃ c t, p.1.data = c :: t ∧ c ≠ '*' ∧ c ≠ '<' ∧ c ≠ '\n' := by
  intro p hp
  simp only [rdsInstanceLines, rdsClusterLines, List.cons_append, List.nil_append,
    List.mem_cons, List.mem_singleton, List.not_mem_nil, or_false] at hp
  rcases hp with rfl | rfl | rfl | rfl | rfl | rfl | rfl | rfl <;>
    exact ⟨_, _, rfl, by decide, by decide, by decide⟩

/-- C8. RDS line gating: when RDS is enabled and the `"rds"` entry is a flat
mapping, the RDS block succeeds, is part of every report that is written, and
among its lines each instance-scoped line (CPU, Free Memory, Connections,
Read Latency, Write Latency) is present if and only if the instance
identifier is non-empty and the key of the line is in the mapping, and each
cluster-scoped line (Volume Size, Read IOPS, Write IOPS) if and only if the
cluster identifier is non-empty and its key is in the mapping. -/
theorem rdsWrites_line_gating {F : Type} [Float64 F] (ro : RangeOrder (GoAny F)) (cfg : Config)
    (timeParams : TimeParams) (allMetrics : GoMap (GoAny F)) (forEmail : Bool) (m : GoMap F)
    (hen : cfg.Services.RDS.Enabled = true)
    (hget : GoMap.get? allMetrics "rds" = some (GoAny.float64Map m)) :
    ∃ ws, rdsWrites (selectRenderer forEmail) cfg allMetrics = some ws ∧
      (∀ out, BuildMessageWrites ro cfg timeParams allMetrics forEmail = some out →
        ∃ before after, out = before ++ ws ++ after) ∧
      (∀ p ∈ rdsInstanceLines, hasLine ws p.1 ↔
        (cfg.Services.RDS.DBInstanceIdentifier ≠ "" ∧ ∃ v, GoMap.get? m p.2 = some v)) ∧
      (∀ p ∈ rdsClusterLines, hasLine ws p.1 ↔
        (cfg.Services.RDS.ClusterID ≠ "" ∧ ∃ v, GoMap.get? m p.2 = some v)) := by
  refine ⟨_, rdsWrites_eq _ cfg allMetrics m hen hget, ?_, ?_, ?_⟩
  · intro out h
    rw [BuildMessageWrites_eq_some] at h
    obtain ⟨ec2, _, agent, _, s3, _, alb, _, cloudfront, _, dynamodb, _, rds, hrds, waf, _,
      logs, _, hws⟩ := h
    rw [rdsWrites_eq _ cfg allMetrics m hen hget] at hrds
    refine ⟨headerWrites (selectRenderer forEmail) timeParams ++ ec2 ++ agent ++ s3 ++ alb ++
      cloudfront ++ dynamodb, waf ++ logs ++ [(selectRenderer forEmail).sep
        timeParams.IsDailyReport], ?_⟩
    rw [← hws, ← Option.some.inj hrds]
    simp only [List.append_assoc]
  · intro p hp
    obtain ⟨c, t, hd, h1, h2, h3⟩ := rdsLines_head p (List.mem_append_left _ hp)
    simp only [hasLine_append, hasLine_singleton,
      rdsHeader_not_label forEmail cfg p.1 ⟨c, t, hd, h1, h2⟩,
      nl_not_label forEmail p.1 ⟨c, t, hd, h3, h2⟩,
      rdsInstanceWrites_instanceLines _ cfg m p hp,
      rdsClusterWrites_instanceLines _ cfg m p hp, false_or, or_false]
  · intro p hp
    obtain ⟨c, t, hd, h1, h2, h3⟩ := rdsLines_head p (List.mem_append_right _ hp)
    simp only [hasLine_append, hasLine_singleton,
      rdsHeader_not_label forEmail cfg p.1 ⟨c, t, hd, h1, h2⟩,
      nl_not_label forEmail p.1 ⟨c, t, hd, h3, h2⟩,
      rdsInstanceWrites_clusterLines _ cfg m p hp,
      rdsClusterWrites_clusterLines _ cfg m p hp, false_or, or_false]

/-- C8, for the cluster `db-cluster-1` without an instance identifier and a
mapping that holds a cluster key and two instance keys. -/
theorem rdsWrites_line_gating_witness :
    ∃ ws, rdsWrites (selectRenderer false) rdsClusterConfig rdsClusterBag = some ws ∧
      (∀ out, BuildMessageWrites (RangeOrder.inOrder _) rdsClusterConfig intervalParams
          rdsClusterBag false = some out → ∃ before after, out = before ++ ws ++ after) ∧
      (∀ p ∈ rdsInstanceLines, hasLine ws p.1 ↔
        (rdsClusterConfig.Services.RDS.DBInstanceIdentifier ≠ "" ∧
          ∃ v, GoMap.get?
            ([ ("Cluster_VolumeBytesUsed", ⟨120500⟩),
               ("Instance_CPUUtilization_Average", ⟨50000⟩),
               ("Instance_FreeableMemory", ⟨2000⟩) ] : GoMap Milli) p.2 = some v)) ∧
      (∀ p ∈ rdsClusterLines, hasLine ws p.1 ↔
        (rdsClusterConfig.Services.RDS.ClusterID ≠ "" ∧
          ∃ v, GoMap.get?
            ([ ("Cluster_VolumeBytesUsed", ⟨120500⟩),
               ("Instance_CPUUtilization_Average", ⟨50000⟩),
               ("Instance_FreeableMemory", ⟨2000⟩) ] : GoMap Milli) p.2 = some v)) :=
  rdsWrites_line_gating (RangeOrder.inOrder _) rdsClusterConfig intervalParams rdsClusterBag
    false _ rfl rfl

/-- The loop over the table names writes one sub-section for each name that
has an entry, in the order of the names, when those entries are flat
mappings. -/
theorem dynamoLoop_eq {F : Type} [Float64 F] (r : renderer) (allTables : GoMap (GoAny F))
    (names : List String)
    (hshape : ∀ t ∈ names, ∀ td, GoMap.get? allTables t = some td →
      ∃ m, td = GoAny.float64Map m) :
    ∃ secs : List (String × GoMap F),
      secs.map Prod.fst = names.filter (fun t => (GoMap.get? allTables t).isSome) ∧
      (∀ p ∈ secs, GoMap.get? allTables p.1 = some (GoAny.float64Map p.2)) ∧
      dynamoLoop r allTables names = some (secs.flatMap fun p => dynamoTableWrites r p.1 p.2) := by
  induction names with
  | nil => exact ⟨[], rfl, by simp, rfl⟩
  | cons t rest ih =>
    obtain ⟨secs, hnames, hdata, hloop⟩ :=
      ih (fun t2 ht2 => hshape t2 (List.mem_cons_of_mem _ ht2))
    cases hget : GoMap.get? allTables t with
    | none =>
      refine ⟨secs, ?_, hdata, ?_⟩
      · simp [hget, hnames]
      · simp only [dynamoLoop, hget]
        exact hloop
    | some td =>
      obtain ⟨m, rfl⟩ := hshape t (List.mem_cons_self _ _) td hget
      refine ⟨(t, m) :: secs, ?_, ?_, ?_⟩
      · simp [hget, hnames]
      · intro p hp
        rcases List.mem_cons.mp hp with rfl | hp
        · exact hget
        · exact hdata p hp
      · simp [dynamoLoop, hget, hloop, GoAny.toFloat64Map]

/-- C9 as stated fails: with the table `t1` listed twice in `tableNames`, a
list that the validator accepts, the report has two DynamoDB sub-sections
for the one configured table name `t1`. -/
theorem dynamodbWrites_duplicate_table :
    validateConfig dupTableConfig = Except.ok () ∧
    dupTableConfig.Services.DynamoDB.TableNames = ["t1", "t1"] ∧
    BuildMessage (RangeOrder.inOrder _) dupTableConfig intervalParams dynamoBag false =
      some ("\n- - - - - - - - - - - - - - -\n\n05/03/2024 07:08:09\n\n" ++
        "*DynamoDB* t1\nTotal Requests: 42\nRead Throttles: 0\nWrite Throttles: 0\n" ++
        "Latency: 0.00 ms\nRead Capacity: 0 units\nWrite Capacity: 0 units\nDB Errors: 3\n\n" ++
        "*DynamoDB* t1\nTotal Requests: 42\nRead Throttles: 0\nWrite Throttles: 0\n" ++
        "Latency: 0.00 ms\nRead Capacity: 0 units\nWrite Capacity: 0 units\nDB Errors: 3\n\n" ++
        "\n- - - - - - - - - - - - - - -\n\n") := by
  decide

/-- C9 (amended). DynamoDB sub-sections: when DynamoDB is enabled, the
`"dynamodb"` entry is a nested mapping and the entries of the configured
tables are flat mappings, the DynamoDB block succeeds and consists of one
sub-section for each entry of `TableNames` whose name has an entry in the
nested mapping, in the order of `TableNames`, rendered from that entry, and
of nothing else.  So a name has as many sub-sections as `TableNames` lists it
if it has an entry and none otherwise (none for a configured table without
an entry, none for an entry whose name is not configured), and when
`TableNames` lists no name twice no name has two sub-sections.  The block is
part of every report that is written. -/
theorem dynamodbWrites_tables {F : Type} [Float64 F] (ro : RangeOrder (GoAny F)) (cfg : Config)
    (timeParams : TimeParams) (allMetrics : GoMap (GoAny F)) (forEmail : Bool)
    (allTables : GoMap (GoAny F))
    (hen : cfg.Services.DynamoDB.Enabled = true)
    (hget : GoMap.get? allMetrics "dynamodb" = some (GoAny.anyMap allTables))
    (hshape : ∀ t ∈ cfg.Services.DynamoDB.TableNames, ∀ td,
      GoMap.get? allTables t = some td → ∃ m, td = GoAny.float64Map m) :
    ∃ secs : List (String × GoMap F),
      secs.map Prod.fst =
        cfg.Services.DynamoDB.TableNames.filter (fun t => (GoMap.get? allTables t).isSome) ∧
      (∀ t, (secs.map Prod.fst).count t =
        if (GoMap.get? allTables t).isSome then cfg.Services.DynamoDB.TableNames.count t
        else 0) ∧
      (cfg.Services.DynamoDB.TableNames.Nodup → (secs.map Prod.fst).Nodup) ∧
      (∀ p ∈ secs, GoMap.get? allTables p.1 = some (GoAny.float64Map p.2)) ∧
      dynamodbWrites (selectRenderer forEmail) cfg allMetrics =
        some (secs.flatMap fun p => dynamoTableWrites (selectRenderer forEmail) p.1 p.2) ∧
      (∀ out, BuildMessageWrites ro cfg timeParams allMetrics forEmail = some out →
        ∃ before after, out = before ++
          (secs.flatMap fun p => dynamoTableWrites (selectRenderer forEmail) p.1 p.2) ++ after) := by
  obtain ⟨secs, hnames, hdata, hloop⟩ :=
    dynamoLoop_eq (selectRenderer forEmail) allTables cfg.Services.DynamoDB.TableNames hshape
  have hw : dynamodbWrites (selectRenderer forEmail) cfg allMetrics =
      some (secs.flatMap fun p => dynamoTableWrites (selectRenderer forEmail) p.1 p.2) := by
    simp [dynamodbWrites, hen, hget, GoAny.toAnyMap, hloop]
  refine ⟨secs, hnames, ?_, ?_, hdata, hw, ?_⟩
  · intro t
    rw [hnames]
    by_cases ht : (GoMap.get? allTables t).isSome = true
    · rw [if_pos ht]
      exact List.count_filter ht
    · rw [if_neg ht]
      apply List.count_eq_zero_of_not_mem
      intro hmem
      exact ht (List.mem_filter.mp hmem).2
  · intro hnodup
    rw [hnames]
    exact hnodup.filter _
  · intro out h
    rw [BuildMessageWrites_eq_some] at h
    obtain ⟨ec2, _, agent, _, s3, _, alb, _, cloudfront, _, dynamodb, hdyn, rds, _, waf, _,
      logs, _, hws⟩ := h
    rw [hw] at hdyn
    refine ⟨headerWrites (selectRenderer forEmail) timeParams ++ ec2 ++ agent ++ s3 ++ alb ++
      cloudfront, rds ++ waf ++ logs ++ [(selectRenderer forEmail).sep
        timeParams.IsDailyReport], ?_⟩
    rw [← hws, ← Option.some.inj hdyn]
    simp only [List.append_assoc]

/-- C9 (amended), for the tables `t1` and `t2` with data for `t1` (and for a
table that is not configured) only: the report has one sub-section, for
`t1`. -/
theorem dynamodbWrites_tables_witness :
    BuildMessage (RangeOrder.inOrder _) dynamoConfig intervalParams dynamoBag false =
      some ("\n- - - - - - - - - - - - - - -\n\n05/03/2024 07:08:09\n\n" ++
        "*DynamoDB* t1\nTotal Requests: 42\nRead Throttles: 0\nWrite Throttles: 0\n" ++
        "Latency: 0.00 ms\nRead Capacity: 0 units\nWrite Capacity: 0 units\nDB Errors: 3\n\n" ++
        "\n- - - - - - - - - - - - - - -\n\n") ∧
    ∃ secs : List (String × GoMap Milli),
      secs.map Prod.fst =
        dynamoConfig.Services.DynamoDB.TableNames.filter
          (fun t => (GoMap.get? dynamoTables t).isSome) ∧
      (∀ t, (secs.map Prod.fst).count t =
        if (GoMap.get? dynamoTables t).isSome then
          dynamoConfig.Services.DynamoDB.TableNames.count t
        else 0) ∧
      (dynamoConfig.Services.DynamoDB.TableNames.Nodup → (secs.map Prod.fst).Nodup) ∧
      (∀ p ∈ secs, GoMap.get? dynamoTables p.1 = some (GoAny.float64Map p.2)) ∧
      dynamodbWrites (selectRenderer false) dynamoConfig dynamoBag =
        some (secs.flatMap fun p => dynamoTableWrites (selectRenderer false) p.1 p.2) ∧
      (∀ out, BuildMessageWrites (RangeOrder.inOrder _) dynamoConfig intervalParams dynamoBag
          false = some out →
        ∃ before after, out = before ++
          (secs.flatMap fun p => dynamoTableWrites (selectRenderer false) p.1 p.2) ++ after) :=
  ⟨by decide,
    dynamodbWrites_tables (RangeOrder.inOrder _) dynamoConfig intervalParams dynamoBag false
      dynamoTables rfl rfl (by
        intro t ht td h
        have ht2 : t = "t1" ∨ t = "t2" := by simpa [dynamoConfig] using ht
        rcases ht2 with rfl | rfl
        · exact ⟨_, (Option.some.inj h).symm⟩
        · have hnone : GoMap.get? dynamoTables "t2" = none := rfl
          rw [hnone] at h
          cases h)⟩

/-! ### The log groups -/

/-- The entries of a map after the assignment `m[k] = v`. -/
theorem GoMap.mem_insert {V : Type} (m : GoMap V) (k : String) (v : V) (k2 : String) (v2 : V) :
    (k2, v2) ∈ GoMap.insert m k v ↔ (k2 = k ∧ v2 = v) ∨ (k2 ≠ k ∧ (k2, v2) ∈ m) := by
  unfold GoMap.insert
  by_cases hany : (m.any fun e => e.1 == k) = true
  · rw [if_pos hany]
    simp only [List.any_eq_true, beq_iff_eq] at hany
    obtain ⟨e0, he0, hk0⟩ := hany
    simp only [List.mem_map]
    constructor
    · rintro ⟨e, he, heq⟩
      by_cases hek : e.1 = k
      · rw [if_pos hek] at heq
        simp only [Prod.mk.injEq] at heq
        exact Or.inl ⟨heq.1.symm, heq.2.symm⟩
      · rw [if_neg hek] at heq
        subst heq
        exact Or.inr ⟨hek, he⟩
    · rintro (⟨rfl, rfl⟩ | ⟨hne, hmem⟩)
      · exact ⟨e0, he0, by rw [if_pos hk0]⟩
      · exact ⟨(k2, v2), hmem, by rw [if_neg hne]⟩
  · rw [if_neg hany]
    simp only [List.any_eq_true, beq_iff_eq, not_exists, not_and] at hany
    simp only [List.mem_append, List.mem_singleton, Prod.mk.injEq]
    constructor
    · rintro (hmem | ⟨rfl, rfl⟩)
      · exact Or.inr ⟨hany (k2, v2) hmem, hmem⟩
      · exact Or.inl ⟨rfl, rfl⟩
    · rintro (⟨rfl, rfl⟩ | ⟨_, hmem⟩)
      · exact Or.inr ⟨rfl, rfl⟩
      · exact Or.inl hmem

/-- The assignment `m[k] = v` keeps the keys pairwise different. -/
theorem GoMap.nodupKeys_insert {V : Type} (m : GoMap V) (k : String) (v : V)
    (h : GoMap.NodupKeys m) : GoMap.NodupKeys (GoMap.insert m k v) := by
  unfold GoMap.insert GoMap.NodupKeys at *
  by_cases hany : (m.any fun e => e.1 == k) = true
  · rw [if_pos hany]
    have hkeys : (m.map fun e => if e.1 = k then (k, v) else e).map Prod.fst =
        m.map Prod.fst := by
      rw [List.map_map]
      apply List.map_congr_left
      intro e _
      by_cases hek : e.1 = k
      · simp [hek]
      · simp [hek]
    rw [hkeys]
    exact h
  · rw [if_neg hany]
    simp only [List.any_eq_true, beq_iff_eq, not_exists, not_and] at hany
    rw [List.map_append, List.nodup_append]
    refine ⟨h, by simp, ?_⟩
    intro a ha hb
    simp only [List.map_cons, List.map_nil, List.mem_singleton] at hb
    obtain ⟨e, he, hfst⟩ := List.mem_map.mp ha
    exact hany e he (hfst.trans hb)

/-- A map with pairwise different keys lists each of its entries once. -/
theorem GoMap.entries_eq_self {V : Type} (m : GoMap V) (h : GoMap.NodupKeys m) :
    GoMap.entries m = m := by
  induction m with
  | nil => rfl
  | cons e rest ih =>
    unfold GoMap.NodupKeys at h
    rw [List.map_cons, List.nodup_cons] at h
    unfold GoMap.entries
    rw [ih h.2, List.filter_eq_self.mpr]
    intro e2 he2
    simp only [ne_eq, decide_eq_true_eq]
    intro heq
    exact h.1 (List.mem_map.mpr ⟨e2, he2, heq⟩)

/-- The sorting loop keeps this invariant: the keys of each local map are
pairwise different, and the entries of `applicationLogs` (of `lambdaLogs`) are
the names visited so far that have data and whose name does not contain
(contains) `/aws/lambda/`, each with its data. -/
theorem partitionLoop_spec {F : Type} (logsMetrics : GoMap (GoAny F)) (names : List String) :
    ∀ (app lam : GoMap (GoAny F)) (seen : List String),
      GoMap.NodupKeys app → GoMap.NodupKeys lam →
      (∀ k v, (k, v) ∈ app ↔ k ∈ seen ∧ GoMap.get? logsMetrics k = some v ∧
        stringsContains k "/aws/lambda/" = false) →
      (∀ k v, (k, v) ∈ lam ↔ k ∈ seen ∧ GoMap.get? logsMetrics k = some v ∧
        stringsContains k "/aws/lambda/" = true) →
      GoMap.NodupKeys (partitionLoop logsMetrics names (app, lam)).1 ∧
      GoMap.NodupKeys (partitionLoop logsMetrics names (app, lam)).2 ∧
      (∀ k v, (k, v) ∈ (partitionLoop logsMetrics names (app, lam)).1 ↔
        k ∈ seen ++ names ∧ GoMap.get? logsMetrics k = some v ∧
          stringsContains k "/aws/lambda/" = false) ∧
      (∀ k v, (k, v) ∈ (partitionLoop logsMetrics names (app, lam)).2 ↔
        k ∈ seen ++ names ∧ GoMap.get? logsMetrics k = some v ∧
          stringsContains k "/aws/lambda/" = true) := by
  induction names with
  | nil =>
    intro app lam seen ha hl hia hil
    simpa [partitionLoop] using ⟨ha, hl, hia, hil⟩
  | cons name rest ih =>
    intro app lam seen ha hl hia hil
    have hseen : seen ++ name :: rest = (seen ++ [name]) ++ rest := by simp
    rw [hseen]
    cases hget : GoMap.get? logsMetrics name with
    | none =>
      simp only [partitionLoop, hget]
      apply ih app lam (seen ++ [name]) ha hl
      · intro k v
        rw [hia k v, List.mem_append, List.mem_singleton]
        constructor
        · rintro ⟨h1, h2, h3⟩
          exact ⟨Or.inl h1, h2, h3⟩
        · rintro ⟨h1 | h1, h2, h3⟩
          · exact ⟨h1, h2, h3⟩
          · rw [h1, hget] at h2
            cases h2
      · intro k v
        rw [hil k v, List.mem_append, List.mem_singleton]
        constructor
        · rintro ⟨h1, h2, h3⟩
          exact ⟨Or.inl h1, h2, h3⟩
        · rintro ⟨h1 | h1, h2, h3⟩
          · exact ⟨h1, h2, h3⟩
          · rw [h1, hget] at h2
            cases h2
    | some data =>
      cases hc : stringsContains name "/aws/lambda/" with
      | true =>
        simp only [partitionLoop, hget, hc, if_true]
        apply ih app (GoMap.insert lam name data) (seen ++ [name]) ha
          (GoMap.nodupKeys_insert lam name data hl)
        · intro k v
          rw [hia k v, List.mem_append, List.mem_singleton]
          constructor
          · rintro ⟨h1, h2, h3⟩
            exact ⟨Or.inl h1, h2, h3⟩
          · rintro ⟨h1 | h1, h2, h3⟩
            · exact ⟨h1, h2, h3⟩
            · rw [h1, hc] at h3
              cases h3
        · intro k v
          rw [GoMap.mem_insert, hil k v, List.mem_append, List.mem_singleton]
          constructor
          · rintro (⟨rfl, rfl⟩ | ⟨_, h1, h2, h3⟩)
            · exact ⟨Or.inr rfl, hget, hc⟩
            · exact ⟨Or.inl h1, h2, h3⟩
          · rintro ⟨h1, h2, h3⟩
            by_cases hk : k = name
            · subst hk
              rw [hget] at h2
              exact Or.inl ⟨rfl, (Option.some.inj h2).symm⟩
            · rcases h1 with h1 | h1
              · exact Or.inr ⟨hk, h1, h2, h3⟩
              · exact absurd h1 hk
      | false =>
        simp only [partitionLoop, hget, hc, Bool.false_eq_true, if_false]
        apply ih (GoMap.insert app name data) lam (seen ++ [name])
          (GoMap.nodupKeys_insert app name data ha) hl
        · intro k v
          rw [GoMap.mem_insert, hia k v, List.mem_append, List.mem_singleton]
          constructor
          · rintro (⟨rfl, rfl⟩ | ⟨_, h1, h2, h3⟩)
            · exact ⟨Or.inr rfl, hget, hc⟩
            · exact ⟨Or.inl h1, h2, h3⟩
          · rintro ⟨h1, h2, h3⟩
            by_cases hk : k = name
            · subst hk
              rw [hget] at h2
              exact Or.inl ⟨rfl, (Option.some.inj h2).symm⟩
            · rcases h1 with h1 | h1
              · exact Or.inr ⟨hk, h1, h2, h3⟩
              · exact absurd h1 hk
        · intro k v
          rw [hil k v, List.mem_append, List.mem_singleton]
          constructor
          · rintro ⟨h1, h2, h3⟩
            exact ⟨Or.inl h1, h2, h3⟩
          · rintro ⟨h1 | h1, h2, h3⟩
            · exact ⟨h1, h2, h3⟩
            · rw [h1, hc] at h3
              cases h3

/-- The loop over the visited entries writes one sub-entry for each of them,
in the order visited, when the data of all of them are count mappings. -/
theorem logRangeLoop_eq {F : Type} (r : renderer) (l : List (String × GoAny F))
    (h : ∀ e ∈ l, ∃ cnt, e.2 = GoAny.intMap cnt) :
    ∃ groups : List (String × GoMap Int),
      l = groups.map (fun g => (g.1, GoAny.intMap g.2)) ∧
      logRangeLoop r l = some (groups.flatMap fun g => logGroupWrites r g.1 g.2) := by
  induction l with
  | nil => exact ⟨[], rfl, rfl⟩
  | cons e rest ih =>
    obtain ⟨groups, hmap, hloop⟩ := ih (fun e2 he2 => h e2 (List.mem_cons_of_mem _ he2))
    obtain ⟨lg, data⟩ := e
    obtain ⟨cnt, hcnt⟩ := h (lg, data) (List.mem_cons_self _ _)
    simp only at hcnt
    subst hcnt
    refine ⟨(lg, cnt) :: groups, by simp [hmap], ?_⟩
    simp [logRangeLoop, hloop, GoAny.toIntMap]

/-- A group block for a bucket whose keys are pairwise different and whose
data are count mappings: the block of the specification for the log groups
of the bucket, taken in the order in which the loop visits them. -/
theorem logBucketWrites_eq {F : Type} (ro : RangeOrder (GoAny F)) (r : renderer)
    (title : String) (logs : GoMap (GoAny F)) (hnd : GoMap.NodupKeys logs)
    (h : ∀ e ∈ logs, ∃ cnt, e.2 = GoAny.intMap cnt) :
    ∃ groups : List (String × GoMap Int),
      logBucketWrites ro r title logs = some (logBucketSpec r title groups) ∧
      (∀ name cnt, (name, cnt) ∈ groups ↔ (name, GoAny.intMap cnt) ∈ logs) ∧
      (groups.map Prod.fst).Nodup := by
  have hperm := ro.visit_perm logs
  obtain ⟨groups, hmap, hloop⟩ := logRangeLoop_eq r (ro.visit logs)
    (fun e he => h e (hperm.mem_iff.mp he))
  have hkeys : groups.map Prod.fst = (ro.visit logs).map Prod.fst := by
    rw [hmap, List.map_map]
    rfl
  have hmem : ∀ name cnt, (name, cnt) ∈ groups ↔ (name, GoAny.intMap cnt) ∈ logs := by
    intro name cnt
    rw [← hperm.mem_iff, hmap, List.mem_map]
    constructor
    · intro hg
      exact ⟨(name, cnt), hg, rfl⟩
    · rintro ⟨g, hg, heq⟩
      simp only [Prod.mk.injEq, GoAny.intMap.injEq] at heq
      obtain ⟨h1, h2⟩ := heq
      have hg2 : g = (name, cnt) := Prod.ext h1 h2
      rw [← hg2]
      exact hg
  refine ⟨groups, ?_, hmem, ?_⟩
  · unfold logBucketWrites GoMap.len
    rw [GoMap.entries_eq_self logs hnd]
    cases hl : logs with
    | nil =>
      have hg : groups = [] := by
        have hlen := hperm.length_eq
        rw [hmap, hl] at hlen
        simpa using hlen
      simp [hg, logBucketSpec]
    | cons e rest =>
      have hg : groups ≠ [] := by
        intro hg
        have hlen := hperm.length_eq
        rw [hmap, hl, hg] at hlen
        simp at hlen
      rw [← hl]
      have hpos : 0 < logs.length := by rw [hl]; simp
      simp only [gt_iff_lt, hpos, if_true, hloop]
      cases hgs : groups with
      | nil => exact absurd hgs hg
      | cons g gs => simp [logBucketSpec]
  · rw [hkeys]
    exact (hperm.map Prod.fst).nodup_iff.mpr hnd

/-- C10. Log-group partition: when CloudWatch Logs is enabled, the
`"cloudwatchLogs"` entry is a nested mapping and the data of the configured
log groups are count mappings, the log block succeeds and is the
`APPLICATION` group block followed by the `LAMBDA` group block, where a group
block is empty for an empty bucket and otherwise the bold group header and
one sub-entry per log group of the bucket; the `LAMBDA` bucket holds, once
each, the configured names that have data and contain `/aws/lambda/`, the
`APPLICATION` bucket those that have data and do not contain it, so that
names without data are in neither bucket.  The block is part of every report
that is written. -/
theorem cloudwatchLogsWrites_partition {F : Type} [Float64 F] (ro : RangeOrder (GoAny F))
    (cfg : Config) (timeParams : TimeParams) (allMetrics : GoMap (GoAny F)) (forEmail : Bool)
    (logsMetrics : GoMap (GoAny F))
    (hen : cfg.Services.CloudWatchLogs.Enabled = true)
    (hget : GoMap.get? allMetrics "cloudwatchLogs" = some (GoAny.anyMap logsMetrics))
    (hshape : ∀ name ∈ cfg.Services.CloudWatchLogs.LogGroupNames, ∀ d,
      GoMap.get? logsMetrics name = some d → ∃ cnt, d = GoAny.intMap cnt) :
    ∃ appGroups lamGroups : List (String × GoMap Int),
      cloudwatchLogsWrites ro (selectRenderer forEmail) cfg allMetrics =
        some (logBucketSpec (selectRenderer forEmail) "APPLICATION" appGroups ++
          logBucketSpec (selectRenderer forEmail) "LAMBDA" lamGroups) ∧
      (∀ name cnt, (name, cnt) ∈ appGroups ↔
        name ∈ cfg.Services.CloudWatchLogs.LogGroupNames ∧
        GoMap.get? logsMetrics name = some (GoAny.intMap cnt) ∧
        stringsContains name "/aws/lambda/" = false) ∧
      (∀ name cnt, (name, cnt) ∈ lamGroups ↔
        name ∈ cfg.Services.CloudWatchLogs.LogGroupNames ∧
        GoMap.get? logsMetrics name = some (GoAny.intMap cnt) ∧
        stringsContains name "/aws/lambda/" = true) ∧
      (appGroups.map Prod.fst).Nodup ∧ (lamGroups.map Prod.fst).Nodup ∧
      (∀ out, BuildMessageWrites ro cfg timeParams allMetrics forEmail = some out →
        ∃ before after, out = before ++
          (logBucketSpec (selectRenderer forEmail) "APPLICATION" appGroups ++
            logBucketSpec (selectRenderer forEmail) "LAMBDA" lamGroups) ++ after) := by
  obtain ⟨hna, hnl, hia, hil⟩ := partitionLoop_spec logsMetrics
    cfg.Services.CloudWatchLogs.LogGroupNames [] [] []
    (by simp [GoMap.NodupKeys]) (by simp [GoMap.NodupKeys]) (by simp) (by simp)
  simp only [List.nil_append] at hia hil
  obtain ⟨appGroups, happ, hamem, hanodup⟩ := logBucketWrites_eq ro (selectRenderer forEmail)
    "APPLICATION" _ hna (fun e he => by
      obtain ⟨k, v⟩ := e
      obtain ⟨h1, h2, _⟩ := (hia k v).mp he
      exact hshape k h1 v h2)
  obtain ⟨lamGroups, hlam, hlmem, hlnodup⟩ := logBucketWrites_eq ro (selectRenderer forEmail)
    "LAMBDA" _ hnl (fun e he => by
      obtain ⟨k, v⟩ := e
      obtain ⟨h1, h2, _⟩ := (hil k v).mp he
      exact hshape k h1 v h2)
  have hw : cloudwatchLogsWrites ro (selectRenderer forEmail) cfg allMetrics =
      some (logBucketSpec (selectRenderer forEmail) "APPLICATION" appGroups ++
        logBucketSpec (selectRenderer forEmail) "LAMBDA" lamGroups) := by
    simp [cloudwatchLogsWrites, hen, hget, GoAny.toAnyMap, happ, hlam]
  refine ⟨appGroups, lamGroups, hw, ?_, ?_, hanodup, hlnodup, ?_⟩
  · intro name cnt
    rw [hamem, hia]
  · intro name cnt
    rw [hlmem, hil]
  · intro out h
    rw [BuildMessageWrites_eq_some] at h
    obtain ⟨ec2, _, agent, _, s3, _, alb, _, cloudfront, _, dynamodb, _, rds, _, waf, _,
      logs, hlogs, hws⟩ := h
    rw [hw] at hlogs
    refine ⟨headerWrites (selectRenderer forEmail) timeParams ++ ec2 ++ agent ++ s3 ++ alb ++
      cloudfront ++ dynamodb ++ rds ++ waf, [(selectRenderer forEmail).sep
        timeParams.IsDailyReport], ?_⟩
    rw [← hws, ← Option.some.inj hlogs]

/-- C10, for a Lambda log group, an application log group and a log group
without data: the report has an `APPLICATION` group with `/svc/app-b` and a
`LAMBDA` group with `/aws/lambda/fn-a`. -/
theorem cloudwatchLogsWrites_partition_witness :
    BuildMessage (RangeOrder.inOrder _) logsConfig intervalParams logsBag false =
      some ("\n- - - - - - - - - - - - - - -\n\n05/03/2024 07:08:09\n\n" ++
        "*APPLICATION*\n/svc/app-b:\nINFO: 3\nWARN: 0\nERROR: 1\n\n" ++
        "*LAMBDA*\n/aws/lambda/fn-a:\nINFO: 3\nWARN: 0\nERROR: 1\n\n" ++
        "\n- - - - - - - - - - - - - - -\n\n") ∧
    ∃ appGroups lamGroups : List (String × GoMap Int),
      cloudwatchLogsWrites (RangeOrder.inOrder _) (selectRenderer false) logsConfig logsBag =
        some (logBucketSpec (selectRenderer false) "APPLICATION" appGroups ++
          logBucketSpec (selectRenderer false) "LAMBDA" lamGroups) ∧
      (∀ name cnt, (name, cnt) ∈ appGroups ↔
        name ∈ logsConfig.Services.CloudWatchLogs.LogGroupNames ∧
        GoMap.get? logsMetricsSample name = some (GoAny.intMap cnt) ∧
        stringsContains name "/aws/lambda/" = false) ∧
      (∀ name cnt, (name, cnt) ∈ lamGroups ↔
        name ∈ logsConfig.Services.CloudWatchLogs.LogGroupNames ∧
        GoMap.get? logsMetricsSample name = some (GoAny.intMap cnt) ∧
        stringsContains name "/aws/lambda/" = true) ∧
      (appGroups.map Prod.fst).Nodup ∧ (lamGroups.map Prod.fst).Nodup ∧
      (∀ out, BuildMessageWrites (RangeOrder.inOrder _) logsConfig intervalParams logsBag
          false = some out →
        ∃ before after, out = before ++
          (logBucketSpec (selectRenderer false) "APPLICATION" appGroups ++
            logBucketSpec (selectRenderer false) "LAMBDA" lamGroups) ++ after) :=
  ⟨by decide,
    cloudwatchLogsWrites_partition (RangeOrder.inOrder _) logsConfig intervalParams logsBag
      false logsMetricsSample rfl rfl (by
        intro name hname d h
        have hname2 : name = "/aws/lambda/fn-a" ∨ name = "/svc/app-b" ∨ name = "/svc/no-data" := by
          simpa [logsConfig] using hname
        rcases hname2 with rfl | rfl | rfl
        · exact ⟨_, (Option.some.inj h).symm⟩
        · exact ⟨_, (Option.some.inj h).symm⟩
        · have hnone : GoMap.get? logsMetricsSample "/svc/no-data" = none := rfl
          rw [hnone] at h
          cases h)⟩

/-! ### Missing entries and disabled kinds -/

/-- The concatenation of the header and the closing separator in the two
dialects. -/
theorem join_frame (timeParams : TimeParams) (forEmail : Bool) :
    (if forEmail then
      "<html><body style=\"font-family: monospace; white-space: pre-wrap;\">" ++
        String.join (headerWrites (selectRenderer forEmail) timeParams ++
          [(selectRenderer forEmail).sep timeParams.IsDailyReport]) ++ "</body></html>"
    else
      String.join (headerWrites (selectRenderer forEmail) timeParams ++
        [(selectRenderer forEmail).sep timeParams.IsDailyReport])) =
      emptyReport timeParams forEmail := by
  cases forEmail <;>
    · apply String.ext
      simp [emptyReport, headerWrites, selectRenderer, String.join, tg, htmlR]

/-- C14. Missing kind entry skips the section without error: on a bag with no
entries, whatever kinds are enabled, `BuildMessage` succeeds and returns the
separator, the formatted `EndTime`, two newline tokens and the separator
(inside the HTML shell in the HTML dialect), and nothing else. -/
theorem BuildMessage_empty_bag {F : Type} [Float64 F] (ro : RangeOrder (GoAny F)) (cfg : Config)
    (timeParams : TimeParams) (forEmail : Bool) :
    BuildMessage ro cfg timeParams ([] : GoMap (GoAny F)) forEmail =
      some (emptyReport timeParams forEmail) ∧
    BuildMessage ro cfg timeParams ([] : GoMap (GoAny F)) false =
      some (tg.sep timeParams.IsDailyReport ++ timeParams.EndTime.Format ++ "\n" ++ "\n" ++
        tg.sep timeParams.IsDailyReport) ∧
    BuildMessage ro cfg timeParams ([] : GoMap (GoAny F)) true =
      some ("<html><body style=\"font-family: monospace; white-space: pre-wrap;\">" ++
        (htmlR.sep timeParams.IsDailyReport ++ timeParams.EndTime.Format ++ "<br>" ++ "<br>" ++
          htmlR.sep timeParams.IsDailyReport) ++ "</body></html>") := by
  have hw : ∀ fe, BuildMessageWrites ro cfg timeParams ([] : GoMap (GoAny F)) fe =
      some (headerWrites (selectRenderer fe) timeParams ++
        [(selectRenderer fe).sep timeParams.IsDailyReport]) := by
    intro fe
    rw [BuildMessageWrites_eq_some]
    refine ⟨[], ?_, [], ?_, [], ?_, [], ?_, [], ?_, [], ?_, [], ?_, [], ?_, [], ?_, by simp⟩
    · unfold ec2Writes; split <;> rfl
    · unfold cloudwatchAgentWrites; split <;> rfl
    · unfold s3Writes; split <;> rfl
    · unfold albWrites; split <;> rfl
    · unfold cloudfrontWrites; split <;> rfl
    · unfold dynamodbWrites; split <;> rfl
    · unfold rdsWrites; split <;> rfl
    · unfold wafWrites; split <;> rfl
    · unfold cloudwatchLogsWrites; split <;> rfl
  have hb : ∀ fe, BuildMessage ro cfg timeParams ([] : GoMap (GoAny F)) fe =
      some (emptyReport timeParams fe) := by
    intro fe
    rw [← join_frame]
    simp only [BuildMessage, hw, Option.bind_eq_bind, Option.some_bind, Option.pure_def]
    cases fe <;> rfl
  exact ⟨hb forEmail, hb false, hb true⟩

/-- When none of the nine blocks writes anything, the report is the header
and the closing separator. -/
theorem BuildMessage_of_blocks_nil {F : Type} [Float64 F] (ro : RangeOrder (GoAny F))
    (cfg : Config) (timeParams : TimeParams) (allMetrics : GoMap (GoAny F)) (forEmail : Bool)
    (h1 : ec2Writes (selectRenderer forEmail) cfg allMetrics = some [])
    (h2 : cloudwatchAgentWrites (selectRenderer forEmail) cfg allMetrics = some [])
    (h3 : s3Writes (selectRenderer forEmail) cfg timeParams allMetrics = some [])
    (h4 : albWrites (selectRenderer forEmail) cfg allMetrics = some [])
    (h5 : cloudfrontWrites (selectRenderer forEmail) cfg allMetrics = some [])
    (h6 : dynamodbWrites (selectRenderer forEmail) cfg allMetrics = some [])
    (h7 : rdsWrites (selectRenderer forEmail) cfg allMetrics = some [])
    (h8 : wafWrites (selectRenderer forEmail) cfg allMetrics = some [])
    (h9 : cloudwatchLogsWrites ro (selectRenderer forEmail) cfg allMetrics = some []) :
    BuildMessage ro cfg timeParams allMetrics forEmail = some (emptyReport timeParams forEmail) := by
  have hw : BuildMessageWrites ro cfg timeParams allMetrics forEmail =
      some (headerWrites (selectRenderer forEmail) timeParams ++
        [(selectRenderer forEmail).sep timeParams.IsDailyReport]) := by
    rw [BuildMessageWrites_eq_some]
    exact ⟨[], h1, [], h2, [], h3, [], h4, [], h5, [], h6, [], h7, [], h8, [], h9, by simp⟩
  rw [← join_frame]
  simp only [BuildMessage, hw, Option.bind_eq_bind, Option.some_bind, Option.pure_def]
  cases forEmail <;> rfl

/-- C15. Disabled kinds contribute nothing: when every service has
`Enabled = false`, `BuildMessage` succeeds on every bag, also one whose
payloads have the wrong shape, and returns only the leading separator, the
timestamp header and the trailing separator; and two bags that have the same
entries for the enabled kinds give the same result, so the result does not
depend on the entry of a kind whose `Enabled` flag is false. -/
theorem BuildMessage_disabled_kinds {F : Type} [Float64 F] (ro : RangeOrder (GoAny F))
    (cfg : Config) (timeParams : TimeParams) (allMetrics other : GoMap (GoAny F))
    (forEmail : Bool) :
    (allDisabled cfg →
      BuildMessage ro cfg timeParams allMetrics forEmail =
        some (emptyReport timeParams forEmail)) ∧
    (agreeOnEnabled cfg allMetrics other →
      BuildMessage ro cfg timeParams allMetrics forEmail =
        BuildMessage ro cfg timeParams other forEmail) := by
  constructor
  · rintro ⟨d1, d2, d3, d4, d5, d6, d7, d8, d9⟩
    apply BuildMessage_of_blocks_nil
    · simp [ec2Writes, d1]
    · simp [cloudwatchAgentWrites, d2]
    · simp [s3Writes, d3]
    · simp [albWrites, d4]
    · simp [cloudfrontWrites, d5]
    · simp [dynamodbWrites, d6]
    · simp [rdsWrites, d7]
    · simp [wafWrites, d8]
    · simp [cloudwatchLogsWrites, d9]
  · rintro ⟨a1, a2, a3, a4, a5, a6, a7, a8, a9⟩
    have e1 : ec2Writes (selectRenderer forEmail) cfg allMetrics =
        ec2Writes (selectRenderer forEmail) cfg other := by
      unfold ec2Writes
      by_cases h : cfg.Services.EC2.Enabled = true
      · rw [a1 h]
      · simp [h]
    have e2 : cloudwatchAgentWrites (selectRenderer forEmail) cfg allMetrics =
        cloudwatchAgentWrites (selectRenderer forEmail) cfg other := by
      unfold cloudwatchAgentWrites
      by_cases h : cfg.Services.CloudWatchAgent.Enabled = true
      · rw [a2 h]
      · simp [h]
    have e3 : s3Writes (selectRenderer forEmail) cfg timeParams allMetrics =
        s3Writes (selectRenderer forEmail) cfg timeParams other := by
      unfold s3Writes
      by_cases h : cfg.Services.S3.Enabled = true
      · rw [a3 h]
      · simp [h]
    have e4 : albWrites (selectRenderer forEmail) cfg allMetrics =
        albWrites (selectRenderer forEmail) cfg other := by
      unfold albWrites
      by_cases h : cfg.Services.ALB.Enabled = true
      · rw [a4 h]
      · simp [h]
    have e5 : cloudfrontWrites (selectRenderer forEmail) cfg allMetrics =
        cloudfrontWrites (selectRenderer forEmail) cfg other := by
      unfold cloudfrontWrites
      by_cases h : cfg.Services.CloudFront.Enabled = true
      · rw [a5 h]
      · simp [h]
    have e6 : dynamodbWrites (selectRenderer forEmail) cfg allMetrics =
        dynamodbWrites (selectRenderer forEmail) cfg other := by
      unfold dynamodbWrites
      by_cases h : cfg.Services.DynamoDB.Enabled = true
      · rw [a6 h]
      · simp [h]
    have e7 : rdsWrites (selectRenderer forEmail) cfg allMetrics =
        rdsWrites (selectRenderer forEmail) cfg other := by
      unfold rdsWrites
      by_cases h : cfg.Services.RDS.Enabled = true
      · rw [a7 h]
      · simp [h]
    have e8 : wafWrites (selectRenderer forEmail) cfg allMetrics =
        wafWrites (selectRenderer forEmail) cfg other := by
      unfold wafWrites
      by_cases h : cfg.Services.WAF.Enabled = true
      · rw [a8 h]
      · simp [h]
    have e9 : cloudwatchLogsWrites ro (selectRenderer forEmail) cfg allMetrics =
        cloudwatchLogsWrites ro (selectRenderer forEmail) cfg other := by
      unfold cloudwatchLogsWrites
      by_cases h : cfg.Services.CloudWatchLogs.Enabled = true
      · rw [a9 h]
      · simp [h]
    simp only [BuildMessage, BuildMessageWrites, e1, e2, e3, e4, e5, e6, e7, e8, e9]

/-- C15, for the configuration with every service disabled and a bag in which
no payload has the shape its kind expects, and for that bag against the empty
bag. -/
theorem BuildMessage_disabled_kinds_witness :
    BuildMessage (RangeOrder.inOrder _) (baseConfig 7 6) intervalParams wrongShapeBag true =
      some (emptyReport intervalParams true) ∧
    BuildMessage (RangeOrder.inOrder _) (baseConfig 7 6) intervalParams wrongShapeBag false =
      BuildMessage (RangeOrder.inOrder _) (baseConfig 7 6) intervalParams
        ([] : GoMap (GoAny Milli)) false :=
  ⟨(BuildMessage_disabled_kinds (RangeOrder.inOrder _) (baseConfig 7 6) intervalParams
      wrongShapeBag [] true).1 ⟨rfl, rfl, rfl, rfl, rfl, rfl, rfl, rfl, rfl⟩,
    (BuildMessage_disabled_kinds (RangeOrder.inOrder _) (baseConfig 7 6) intervalParams
      wrongShapeBag [] false).2 (by
        refine ⟨?_, ?_, ?_, ?_, ?_, ?_, ?_, ?_, ?_⟩ <;> intro h <;> cases h)⟩

/-! ### Payloads of the wrong shape -/

/-- A type assertion to a flat metric mapping either succeeds or panics. -/
theorem toFloat64Map_cases {F : Type} (d : GoAny F) :
    d.toFloat64Map = none ∨ ∃ m, d.toFloat64Map = some m := by
  cases h : d.toFloat64Map with
  | none => exact Or.inl rfl
  | some m => exact Or.inr ⟨m, rfl⟩

/-- The EC2 block panics exactly on a payload that is not flat. -/
theorem ec2Writes_eq_none {F : Type} [Float64 F] (r : renderer) (cfg : Config)
    (allMetrics : GoMap (GoAny F)) :
    ec2Writes r cfg allMetrics = none ↔
      (cfg.Services.EC2.Enabled = true ∧ flatMismatch allMetrics "ec2") := by
  unfold ec2Writes flatMismatch
  by_cases h : cfg.Services.EC2.Enabled = true
  · cases hget : GoMap.get? allMetrics "ec2" with
    | none => simp [h]
    | some d => rcases toFloat64Map_cases d with hd | ⟨m, hd⟩ <;> simp [h, hd]
  · simp [h]

/-- The CloudWatch Agent block panics exactly on a payload that is not
flat. -/
theorem cloudwatchAgentWrites_eq_none {F : Type} [Float64 F] (r : renderer) (cfg : Config)
    (allMetrics : GoMap (GoAny F)) :
    cloudwatchAgentWrites r cfg allMetrics = none ↔
      (cfg.Services.CloudWatchAgent.Enabled = true ∧
        flatMismatch allMetrics "cloudwatchAgent") := by
  unfold cloudwatchAgentWrites flatMismatch
  by_cases h : cfg.Services.CloudWatchAgent.Enabled = true
  · cases hget : GoMap.get? allMetrics "cloudwatchAgent" with
    | none => simp [h]
    | some d => rcases toFloat64Map_cases d with hd | ⟨m, hd⟩ <;> simp [h, hd]
  · simp [h]

/-- The S3 block panics exactly on a daily report with a payload that is not
flat. -/
theorem s3Writes_eq_none {F : Type} [Float64 F] (r : renderer) (cfg : Config)
    (timeParams : TimeParams) (allMetrics : GoMap (GoAny F)) :
    s3Writes r cfg timeParams allMetrics = none ↔
      (cfg.Services.S3.Enabled = true ∧ timeParams.IsDailyReport = true ∧
        flatMismatch allMetrics "s3") := by
  unfold s3Writes flatMismatch
  by_cases h : cfg.Services.S3.Enabled = true
  · by_cases h2 : timeParams.IsDailyReport = true
    · cases hget : GoMap.get? allMetrics "s3" with
      | none => simp [h, h2]
      | some d => rcases toFloat64Map_cases d with hd | ⟨m, hd⟩ <;> simp [h, h2, hd]
    · simp [h, h2]
  · simp [h]

/-- The ALB block panics exactly on a payload that is not flat. -/
theorem albWrites_eq_none {F : Type} [Float64 F] (r : renderer) (cfg : Config)
    (allMetrics : GoMap (GoAny F)) :
    albWrites r cfg allMetrics = none ↔
      (cfg.Services.ALB.Enabled = true ∧ flatMismatch allMetrics "alb") := by
  unfold albWrites flatMismatch
  by_cases h : cfg.Services.ALB.Enabled = true
  · cases hget : GoMap.get? allMetrics "alb" with
    | none => simp [h]
    | some d => rcases toFloat64Map_cases d with hd | ⟨m, hd⟩ <;> simp [h, hd]
  · simp [h]

/-- The CloudFront block panics exactly on a payload that is not flat. -/
theorem cloudfrontWrites_eq_none {F : Type} [Float64 F] (r : renderer) (cfg : Config)
    (allMetrics : GoMap (GoAny F)) :
    cloudfrontWrites r cfg allMetrics = none ↔
      (cfg.Services.CloudFront.Enabled = true ∧ flatMismatch allMetrics "cloudfront") := by
  unfold cloudfrontWrites flatMismatch
  by_cases h : cfg.Services.CloudFront.Enabled = true
  · cases hget : GoMap.get? allMetrics "cloudfront" with
    | none => simp [h]
    | some d => rcases toFloat64Map_cases d with hd | ⟨m, hd⟩ <;> simp [h, hd]
  · simp [h]

/-- The RDS block panics exactly on a payload that is not flat. -/
theorem rdsWrites_eq_none {F : Type} [Float64 F] (r : renderer) (cfg : Config)
    (allMetrics : GoMap (GoAny F)) :
    rdsWrites r cfg allMetrics = none ↔
      (cfg.Services.RDS.Enabled = true ∧ flatMismatch allMetrics "rds") := by
  unfold rdsWrites flatMismatch
  by_cases h : cfg.Services.RDS.Enabled = true
  · cases hget : GoMap.get? allMetrics "rds" with
    | none => simp [h]
    | some d => rcases toFloat64Map_cases d with hd | ⟨m, hd⟩ <;> simp [h, hd]
  · simp [h]

/-- The WAF block panics exactly on a payload that is not flat. -/
theorem wafWrites_eq_none {F : Type} [Float64 F] (r : renderer) (cfg : Config)
    (allMetrics : GoMap (GoAny F)) :
    wafWrites r cfg allMetrics = none ↔
      (cfg.Services.WAF.Enabled = true ∧ flatMismatch allMetrics "waf") := by
  unfold wafWrites flatMismatch
  by_cases h : cfg.Services.WAF.Enabled = true
  · cases hget : GoMap.get? allMetrics "waf" with
    | none => simp [h]
    | some d => rcases toFloat64Map_cases d with hd | ⟨m, hd⟩ <;> simp [h, hd]
  · simp [h]

/-- The loop over the table names panics exactly when the entry of some name
is not a flat metric mapping. -/
theorem dynamoLoop_eq_none {F : Type} [Float64 F] (r : renderer) (allTables : GoMap (GoAny F))
    (names : List String) :
    dynamoLoop r allTables names = none ↔
      ∃ table ∈ names, ∃ td, GoMap.get? allTables table = some td ∧ td.toFloat64Map = none := by
  induction names with
  | nil => simp [dynamoLoop]
  | cons t rest ih =>
    cases hget : GoMap.get? allTables t with
    | none =>
      simp only [dynamoLoop, hget, ih, List.mem_cons, exists_eq_or_imp]
      simp
    | some td =>
      rcases toFloat64Map_cases td with hd | ⟨m, hd⟩
      · simp only [dynamoLoop, hget, hd, Option.bind_eq_bind, Option.none_bind, true_iff]
        exact ⟨t, List.mem_cons_self _ _, td, hget, hd⟩
      · simp only [dynamoLoop, hget, hd, Option.bind_eq_bind, Option.some_bind,
          List.mem_cons, exists_eq_or_imp, Option.some.injEq, exists_eq_left']
        cases hl : dynamoLoop r allTables rest with
        | none =>
          simp only [Option.none_bind, true_iff]
          exact Or.inr (ih.mp hl)
        | some more =>
          have hno : ¬ ∃ table ∈ rest, ∃ td, GoMap.get? allTables table = some td ∧
              td.toFloat64Map = none := by
            rw [← ih, hl]
            simp
          simp [hd, hno]

/-- The DynamoDB block panics exactly on a payload that is not nested or has
a configured table whose entry is not flat. -/
theorem dynamodbWrites_eq_none {F : Type} [Float64 F] (r : renderer) (cfg : Config)
    (allMetrics : GoMap (GoAny F)) :
    dynamodbWrites r cfg allMetrics = none ↔
      (cfg.Services.DynamoDB.Enabled = true ∧ dynamodbMismatch cfg allMetrics) := by
  unfold dynamodbWrites dynamodbMismatch
  by_cases h : cfg.Services.DynamoDB.Enabled = true
  · cases hget : GoMap.get? allMetrics "dynamodb" with
    | none => simp [h]
    | some d =>
      cases hd : d.toAnyMap with
      | none => simp [h, hd]
      | some allTables => simp [h, hd, dynamoLoop_eq_none]
  · simp [h]

/-- The loop over the visited log groups panics exactly when the data of one
of them is not a count mapping. -/
theorem logRangeLoop_eq_none {F : Type} (r : renderer) (l : List (String × GoAny F)) :
    logRangeLoop r l = none ↔ ∃ e ∈ l, e.2.toIntMap = none := by
  induction l with
  | nil => simp [logRangeLoop]
  | cons e rest ih =>
    obtain ⟨lg, data⟩ := e
    cases hd : data.toIntMap with
    | none =>
      simp only [logRangeLoop, hd, Option.bind_eq_bind, Option.none_bind, true_iff]
      exact ⟨(lg, data), List.mem_cons_self _ _, hd⟩
    | some cnt =>
      cases hl : logRangeLoop r rest with
      | none =>
        simp only [logRangeLoop, hd, hl, Option.bind_eq_bind, Option.some_bind,
          Option.none_bind, true_iff]
        obtain ⟨e, he, hbad⟩ := ih.mp hl
        exact ⟨e, List.mem_cons_of_mem _ he, hbad⟩
      | some more =>
        have hno : ¬ ∃ e ∈ rest, e.2.toIntMap = none := by
          rw [← ih, hl]
          simp
        simp only [logRangeLoop, hd, hl, Option.bind_eq_bind, Option.some_bind,
          Option.pure_def]
        constructor
        · intro h
          cases h
        · rintro ⟨e, he, hbad⟩
          rcases List.mem_cons.mp he with rfl | he
          · rw [hd] at hbad
            cases hbad
          · exact absurd ⟨e, he, hbad⟩ hno

/-- A group block for a bucket whose keys are pairwise different panics
exactly when the data of some log group of the bucket is not a count
mapping, whatever the order of the visit. -/
theorem logBucketWrites_eq_none {F : Type} (ro : RangeOrder (GoAny F)) (r : renderer)
    (title : String) (logs : GoMap (GoAny F)) (hnd : GoMap.NodupKeys logs) :
    logBucketWrites ro r title logs = none ↔ ∃ e ∈ logs, e.2.toIntMap = none := by
  have hperm := ro.visit_perm logs
  unfold logBucketWrites GoMap.len
  rw [GoMap.entries_eq_self logs hnd]
  cases hl : logs with
  | nil => simp
  | cons e rest =>
    rw [← hl]
    have hpos : 0 < logs.length := by rw [hl]; simp
    simp only [gt_iff_lt, hpos, if_true]
    cases hloop : logRangeLoop r (ro.visit logs) with
    | none =>
      simp only [Option.bind_eq_bind, Option.none_bind, true_iff]
      obtain ⟨e2, he2, hbad⟩ := (logRangeLoop_eq_none r _).mp hloop
      exact ⟨e2, hperm.mem_iff.mp he2, hbad⟩
    | some body =>
      simp only [Option.bind_eq_bind, Option.some_bind, Option.pure_def]
      constructor
      · intro h
        cases h
      · rintro ⟨e2, he2, hbad⟩
        have hnone := (logRangeLoop_eq_none r (ro.visit logs)).mpr
          ⟨e2, hperm.mem_iff.mpr he2, hbad⟩
        rw [hloop] at hnone
        cases hnone

/-- Two steps that may panic, one after the other, panic when one of them
does. -/
theorem bind_bind_eq_none {α β γ : Type} (x : Option α) (y : Option β) (f : α → β → γ) :
    (x.bind fun a => y.bind fun b => some (f a b)) = none ↔ x = none ∨ y = none := by
  cases x <;> cases y <;> simp

/-- The CloudWatch Logs block panics exactly on a payload that is not nested
or has a configured log group whose data is not a count mapping. -/
theorem cloudwatchLogsWrites_eq_none {F : Type} (ro : RangeOrder (GoAny F)) (r : renderer)
    (cfg : Config) (allMetrics : GoMap (GoAny F)) :
    cloudwatchLogsWrites ro r cfg allMetrics = none ↔
      (cfg.Services.CloudWatchLogs.Enabled = true ∧ cloudwatchLogsMismatch cfg allMetrics) := by
  unfold cloudwatchLogsWrites cloudwatchLogsMismatch
  by_cases h : cfg.Services.CloudWatchLogs.Enabled = true
  · cases hget : GoMap.get? allMetrics "cloudwatchLogs" with
    | none => simp [h]
    | some d =>
      cases hd : d.toAnyMap with
      | none => simp [h, hd]
      | some logsMetrics =>
        obtain ⟨hna, hnl, hia, hil⟩ := partitionLoop_spec logsMetrics
          cfg.Services.CloudWatchLogs.LogGroupNames [] [] []
          (by simp [GoMap.NodupKeys]) (by simp [GoMap.NodupKeys]) (by simp) (by simp)
        simp only [List.nil_append] at hia hil
        have happ := logBucketWrites_eq_none ro r "APPLICATION" _ hna
        have hlam := logBucketWrites_eq_none ro r "LAMBDA" _ hnl
        have hbody : ((logBucketWrites ro r "APPLICATION"
              (partitionLoop logsMetrics cfg.Services.CloudWatchLogs.LogGroupNames
                ([], [])).1).bind fun app =>
            (logBucketWrites ro r "LAMBDA"
              (partitionLoop logsMetrics cfg.Services.CloudWatchLogs.LogGroupNames
                ([], [])).2).bind fun lam => some (app ++ lam)) = none ↔
            ∃ name ∈ cfg.Services.CloudWatchLogs.LogGroupNames, ∃ data,
              GoMap.get? logsMetrics name = some data ∧ data.toIntMap = none := by
          rw [bind_bind_eq_none, happ, hlam]
          constructor
          · rintro (⟨⟨k, v⟩, he, hbad⟩ | ⟨⟨k, v⟩, he, hbad⟩)
            · obtain ⟨h1, h2, _⟩ := (hia k v).mp he
              exact ⟨k, h1, v, h2, hbad⟩
            · obtain ⟨h1, h2, _⟩ := (hil k v).mp he
              exact ⟨k, h1, v, h2, hbad⟩
          · rintro ⟨name, hname, data, hdata, hbad⟩
            cases hc : stringsContains name "/aws/lambda/" with
            | false => exact Or.inl ⟨(name, data), (hia name data).mpr ⟨hname, hdata, hc⟩, hbad⟩
            | true => exact Or.inr ⟨(name, data), (hil name data).mpr ⟨hname, hdata, hc⟩, hbad⟩
        simp only [h, if_true, Option.bind_eq_bind, Option.some_bind, true_and,
          Option.some.injEq, exists_eq_left', hd, false_or, reduceCtorEq, Option.pure_def]
        exact hbody
  · simp [h]

/-- The report is missing, that is `BuildMessage` panics, exactly when some
payload that it reads has the wrong shape; the dialect and the order of the
visits play no part. -/
theorem BuildMessage_eq_none_iff {F : Type} [Float64 F] (ro : RangeOrder (GoAny F))
    (cfg : Config) (timeParams : TimeParams) (allMetrics : GoMap (GoAny F)) (forEmail : Bool) :
    BuildMessage ro cfg timeParams allMetrics forEmail = none ↔
      ShapeMismatch cfg timeParams allMetrics := by
  rw [ShapeMismatch, ← ec2Writes_eq_none (selectRenderer forEmail),
    ← cloudwatchAgentWrites_eq_none (selectRenderer forEmail),
    ← s3Writes_eq_none (selectRenderer forEmail),
    ← albWrites_eq_none (selectRenderer forEmail),
    ← cloudfrontWrites_eq_none (selectRenderer forEmail),
    ← dynamodbWrites_eq_none (selectRenderer forEmail),
    ← rdsWrites_eq_none (selectRenderer forEmail),
    ← wafWrites_eq_none (selectRenderer forEmail),
    ← cloudwatchLogsWrites_eq_none ro (selectRenderer forEmail)]
  simp only [BuildMessage, BuildMessageWrites, Option.bind_eq_bind, Option.pure_def]
  rcases ec2Writes (selectRenderer forEmail) cfg allMetrics with _ | w1
  · simp
  rcases cloudwatchAgentWrites (selectRenderer forEmail) cfg allMetrics with _ | w2
  · simp
  rcases s3Writes (selectRenderer forEmail) cfg timeParams allMetrics with _ | w3
  · simp
  rcases albWrites (selectRenderer forEmail) cfg allMetrics with _ | w4
  · simp
  rcases cloudfrontWrites (selectRenderer forEmail) cfg allMetrics with _ | w5
  · simp
  rcases dynamodbWrites (selectRenderer forEmail) cfg allMetrics with _ | w6
  · simp
  rcases rdsWrites (selectRenderer forEmail) cfg allMetrics with _ | w7
  · simp
  rcases wafWrites (selectRenderer forEmail) cfg allMetrics with _ | w8
  · simp
  rcases cloudwatchLogsWrites ro (selectRenderer forEmail) cfg allMetrics with _ | w9
  · simp
  cases forEmail <;> simp

/-- The report exists exactly when no payload that `BuildMessage` reads has
the wrong shape. -/
theorem BuildMessage_isSome_iff {F : Type} [Float64 F] (ro : RangeOrder (GoAny F))
    (cfg : Config) (timeParams : TimeParams) (allMetrics : GoMap (GoAny F)) (forEmail : Bool) :
    (∃ out, BuildMessage ro cfg timeParams allMetrics forEmail = some out) ↔
      ¬ ShapeMismatch cfg timeParams allMetrics := by
  rw [← BuildMessage_eq_none_iff ro cfg timeParams allMetrics forEmail]
  cases BuildMessage ro cfg timeParams allMetrics forEmail <;> simp

/-- C13 as stated fails: with S3 enabled, an `"s3"` payload of the wrong
shape is never read on an interval report, and with DynamoDB enabled the
payload of a table that is not configured is never read; in both cases
`BuildMessage` returns a report. -/
theorem BuildMessage_ignores_unread_payload :
    s3Config.Services.S3.Enabled = true ∧
    (GoMap.get? s3WrongShapeBag "s3").map GoAny.toFloat64Map = some none ∧
    BuildMessage (RangeOrder.inOrder _) s3Config intervalParams s3WrongShapeBag false =
      some "\n- - - - - - - - - - - - - - -\n\n05/03/2024 07:08:09\n\n\n- - - - - - - - - - - - - - -\n\n" ∧
    dynamoConfig.Services.DynamoDB.Enabled = true ∧
    BuildMessage (RangeOrder.inOrder _) dynamoConfig intervalParams dynamoStrayBag false =
      some ("\n- - - - - - - - - - - - - - -\n\n05/03/2024 07:08:09\n\n" ++
        "*DynamoDB* t1\nTotal Requests: 42\nRead Throttles: 0\nWrite Throttles: 0\n" ++
        "Latency: 0.00 ms\nRead Capacity: 0 units\nWrite Capacity: 0 units\nDB Errors: 0\n\n" ++
        "\n- - - - - - - - - - - - - - -\n\n") := by
  refine ⟨rfl, rfl, by decide, rfl, by decide⟩

/-- C13 (amended). Fail-fast on shape mismatch: in both dialects and for
every order of the visits, `BuildMessage` panics and returns no report, not
even a partial one, if some payload that it reads has the wrong shape: the
payload of an enabled kind (of S3 on a daily report only) that is not a flat
mapping, or not a nested mapping for DynamoDB and CloudWatch Logs, or in the
nested mapping the entry of a configured table that is not a flat mapping or
of a configured log group that is not a count mapping; otherwise it returns a
report. -/
theorem BuildMessage_fail_fast {F : Type} [Float64 F] (ro : RangeOrder (GoAny F))
    (cfg : Config) (timeParams : TimeParams) (allMetrics : GoMap (GoAny F)) (forEmail : Bool) :
    (ShapeMismatch cfg timeParams allMetrics →
      BuildMessage ro cfg timeParams allMetrics forEmail = none) ∧
    (¬ ShapeMismatch cfg timeParams allMetrics →
      ∃ out, BuildMessage ro cfg timeParams allMetrics forEmail = some out) :=
  ⟨(BuildMessage_eq_none_iff ro cfg timeParams allMetrics forEmail).mpr,
    (BuildMessage_isSome_iff ro cfg timeParams allMetrics forEmail).mpr⟩

/-- C13 (amended), for every kind enabled and a bag in which no payload has
the shape its kind expects. -/
theorem BuildMessage_fail_fast_witness :
    BuildMessage (RangeOrder.inOrder _) allEnabledConfig dailyParams wrongShapeBag true = none :=
  (BuildMessage_fail_fast (RangeOrder.inOrder _) allEnabledConfig dailyParams wrongShapeBag
    true).1 (Or.inl ⟨rfl, GoAny.other, rfl, rfl⟩)

/-! ### The blank line after a section -/

/-- A content line and one more newline token end with a blank line. -/
theorem endsWithBlankLine_base (r : renderer) (line : String) :
    endsWithBlankLine r [line ++ r.nl, r.nl] :=
  ⟨[], line, rfl⟩

/-- Strings written before do not change how the written strings end. -/
theorem endsWithBlankLine_cons (r : renderer) (w : String) (ws : List String)
    (h : endsWithBlankLine r ws) : endsWithBlankLine r (w :: ws) := by
  obtain ⟨before, line, rfl⟩ := h
  exact ⟨w :: before, line, rfl⟩

/-- Lines, at least one, and then one more newline token end with a blank
line. -/
theorem endsWithBlankLine_of_lines (r : renderer) (l : List String) (hne : l ≠ [])
    (h : ∀ w ∈ l, isLine r w) : endsWithBlankLine r (l ++ [r.nl]) := by
  obtain ⟨line, hline⟩ := h (l.getLast hne) (List.getLast_mem hne)
  refine ⟨l.dropLast, line, ?_⟩
  rw [← hline]
  conv_lhs => rw [← List.dropLast_append_getLast hne]
  simp

/-- The keyed lines of the RDS block are lines. -/
theorem rdsLine_isLine {F : Type} [Float64 F] (r : renderer) (m : GoMap F)
    (key before : String) (prec : Nat) (after : String) :
    ∀ w ∈ rdsLine r m key before prec after, isLine r w := by
  intro w hw
  unfold rdsLine at hw
  cases hget : GoMap.get? m key with
  | none => simp [hget] at hw
  | some v =>
    simp only [hget, List.mem_singleton] at hw
    exact ⟨_, hw⟩

/-- The CPU line of the RDS block is a line. -/
theorem rdsCPULine_isLine {F : Type} [Float64 F] (r : renderer) (m : GoMap F) :
    ∀ w ∈ rdsCPULine r m, isLine r w := by
  intro w hw
  unfold rdsCPULine at hw
  cases hget : GoMap.get? m "Instance_CPUUtilization_Average" with
  | none => simp [hget] at hw
  | some v =>
    simp only [hget, List.mem_singleton] at hw
    exact ⟨_, hw⟩

/-- The RDS block, when it writes, ends with a blank line. -/
theorem rdsWrites_blank {F : Type} [Float64 F] (r : renderer) (cfg : Config)
    (allMetrics : GoMap (GoAny F)) (ws : List String)
    (h : rdsWrites r cfg allMetrics = some ws) : ws = [] ∨ endsWithBlankLine r ws := by
  unfold rdsWrites at h
  by_cases hen : cfg.Services.RDS.Enabled = true
  · cases hget : GoMap.get? allMetrics "rds" with
    | none =>
      simp only [hen, hget, if_true, Option.pure_def, Option.some.injEq] at h
      exact Or.inl h.symm
    | some d =>
      rcases toFloat64Map_cases d with hd | ⟨m, hd⟩
      · simp [hen, hget, hd] at h
      · simp only [hen, hget, hd, if_true, Option.bind_eq_bind, Option.some_bind,
          Option.pure_def, Option.some.injEq] at h
        right
        rw [← h]
        apply endsWithBlankLine_of_lines
        · simp
        · intro w hw
          simp only [List.mem_append, List.mem_singleton] at hw
          rcases hw with (hw | hw) | hw
          · exact ⟨_, hw⟩
          · unfold rdsInstanceWrites at hw
            split at hw
            · simp only [List.mem_append] at hw
              rcases hw with (((hw | hw) | hw) | hw) | hw
              · exact rdsCPULine_isLine r m w hw
              · exact rdsLine_isLine r m _ _ _ _ w hw
              · exact rdsLine_isLine r m _ _ _ _ w hw
              · exact rdsLine_isLine r m _ _ _ _ w hw
              · exact rdsLine_isLine r m _ _ _ _ w hw
            · simp at hw
          · unfold rdsClusterWrites at hw
            split at hw
            · simp only [List.mem_append] at hw
              rcases hw with (hw | hw) | hw
              · exact rdsLine_isLine r m _ _ _ _ w hw
              · exact rdsLine_isLine r m _ _ _ _ w hw
              · exact rdsLine_isLine r m _ _ _ _ w hw
            · simp at hw
  · simp only [hen, Bool.false_eq_true, if_false, Option.pure_def, Option.some.injEq] at h
    exact Or.inl h.symm

/-- The CloudWatch Agent block, when it writes, ends with a blank line. -/
theorem cloudwatchAgentWrites_blank {F : Type} [Float64 F] (r : renderer) (cfg : Config)
    (allMetrics : GoMap (GoAny F)) (ws : List String)
    (h : cloudwatchAgentWrites r cfg allMetrics = some ws) :
    ws = [] ∨ endsWithBlankLine r ws := by
  unfold cloudwatchAgentWrites at h
  by_cases hen : cfg.Services.CloudWatchAgent.Enabled = true
  · cases hget : GoMap.get? allMetrics "cloudwatchAgent" with
    | none =>
      simp only [hen, hget, if_true, Option.pure_def, Option.some.injEq] at h
      exact Or.inl h.symm
    | some d =>
      rcases toFloat64Map_cases d with hd | ⟨m, hd⟩
      · simp [hen, hget, hd] at h
      · simp only [hen, hget, hd, if_true, Option.bind_eq_bind, Option.some_bind,
          Option.pure_def, Option.some.injEq] at h
        right
        rw [← h]
        repeat (first | exact endsWithBlankLine_base _ _ | apply endsWithBlankLine_cons)
  · simp only [hen, Bool.false_eq_true, if_false, Option.pure_def, Option.some.injEq] at h
    exact Or.inl h.symm

/-- The S3 block, when it writes, ends with a blank line. -/
theorem s3Writes_blank {F : Type} [Float64 F] (r : renderer) (cfg : Config)
    (timeParams : TimeParams) (allMetrics : GoMap (GoAny F)) (ws : List String)
    (h : s3Writes r cfg timeParams allMetrics = some ws) :
    ws = [] ∨ endsWithBlankLine r ws := by
  unfold s3Writes at h
  by_cases hen : (cfg.Services.S3.Enabled && timeParams.IsDailyReport) = true
  · cases hget : GoMap.get? allMetrics "s3" with
    | none =>
      simp only [hen, hget, if_true, Option.pure_def, Option.some.injEq] at h
      exact Or.inl h.symm
    | some d =>
      rcases toFloat64Map_cases d with hd | ⟨m, hd⟩
      · simp [hen, hget, hd] at h
      · simp only [hen, hget, hd, if_true, Option.bind_eq_bind, Option.some_bind,
          Option.pure_def, Option.some.injEq] at h
        right
        rw [← h]
        repeat (first | exact endsWithBlankLine_base _ _ | apply endsWithBlankLine_cons)
  · simp only [hen, Bool.false_eq_true, if_false, Option.pure_def, Option.some.injEq] at h
    exact Or.inl h.symm

/-- The ALB block, when it writes, ends with a blank line. -/
theorem albWrites_blank {F : Type} [Float64 F] (r : renderer) (cfg : Config)
    (allMetrics : GoMap (GoAny F)) (ws : List String)
    (h : albWrites r cfg allMetrics = some ws) : ws = [] ∨ endsWithBlankLine r ws := by
  unfold albWrites at h
  by_cases hen : cfg.Services.ALB.Enabled = true
  · cases hget : GoMap.get? allMetrics "alb" with
    | none =>
      simp only [hen, hget, if_true, Option.pure_def, Option.some.injEq] at h
      exact Or.inl h.symm
    | some d =>
      rcases toFloat64Map_cases d with hd | ⟨m, hd⟩
      · simp [hen, hget, hd] at h
      · simp only [hen, hget, hd, if_true, Option.bind_eq_bind, Option.some_bind,
          Option.pure_def, Option.some.injEq] at h
        right
        rw [← h]
        repeat (first | exact endsWithBlankLine_base _ _ | apply endsWithBlankLine_cons)
  · simp only [hen, Bool.false_eq_true, if_false, Option.pure_def, Option.some.injEq] at h
    exact Or.inl h.symm

/-- The CloudFront block, when it writes, ends with a blank line. -/
theorem cloudfrontWrites_blank {F : Type} [Float64 F] (r : renderer) (cfg : Config)
    (allMetrics : GoMap (GoAny F)) (ws : List String)
    (h : cloudfrontWrites r cfg allMetrics = some ws) : ws = [] ∨ endsWithBlankLine r ws := by
  unfold cloudfrontWrites at h
  by_cases hen : cfg.Services.CloudFront.Enabled = true
  · cases hget : GoMap.get? allMetrics "cloudfront" with
    | none =>
      simp only [hen, hget, if_true, Option.pure_def, Option.some.injEq] at h
      exact Or.inl h.symm
    | some d =>
      rcases toFloat64Map_cases d with hd | ⟨m, hd⟩
      · simp [hen, hget, hd] at h
      · simp only [hen, hget, hd, if_true, Option.bind_eq_bind, Option.some_bind,
          Option.pure_def, Option.some.injEq] at h
        right
        rw [← h]
        repeat (first | exact endsWithBlankLine_base _ _ | apply endsWithBlankLine_cons)
  · simp only [hen, Bool.false_eq_true, if_false, Option.pure_def, Option.some.injEq] at h
    exact Or.inl h.symm

/-- The WAF block, when it writes, ends with a blank line. -/
theorem wafWrites_blank {F : Type} [Float64 F] (r : renderer) (cfg : Config)
    (allMetrics : GoMap (GoAny F)) (ws : List String)
    (h : wafWrites r cfg allMetrics = some ws) : ws = [] ∨ endsWithBlankLine r ws := by
  unfold wafWrites at h
  by_cases hen : cfg.Services.WAF.Enabled = true
  · cases hget : GoMap.get? allMetrics "waf" with
    | none =>
      simp only [hen, hget, if_true, Option.pure_def, Option.some.injEq] at h
      exact Or.inl h.symm
    | some d =>
      rcases toFloat64Map_cases d with hd | ⟨m, hd⟩
      · simp [hen, hget, hd] at h
      · simp only [hen, hget, hd, if_true, Option.bind_eq_bind, Option.some_bind,
          Option.pure_def, Option.some.injEq] at h
        right
        rw [← h]
        repeat (first | exact endsWithBlankLine_base _ _ | apply endsWithBlankLine_cons)
  · simp only [hen, Bool.false_eq_true, if_false, Option.pure_def, Option.some.injEq] at h
    exact Or.inl h.symm

/-- The EC2 block, when it writes, is five lines and no blank line. -/
theorem ec2Writes_lines {F : Type} [Float64 F] (r : renderer) (cfg : Config)
    (allMetrics : GoMap (GoAny F)) (ws : List String)
    (h : ec2Writes r cfg allMetrics = some ws) :
    ws = [] ∨ (ws.length = 5 ∧ ∀ w ∈ ws, isLine r w) := by
  unfold ec2Writes at h
  by_cases hen : cfg.Services.EC2.Enabled = true
  · cases hget : GoMap.get? allMetrics "ec2" with
    | none =>
      simp only [hen, hget, if_true, Option.pure_def, Option.some.injEq] at h
      exact Or.inl h.symm
    | some d =>
      rcases toFloat64Map_cases d with hd | ⟨m, hd⟩
      · simp [hen, hget, hd] at h
      · simp only [hen, hget, hd, if_true, Option.bind_eq_bind, Option.some_bind,
          Option.pure_def, Option.some.injEq] at h
        right
        rw [← h]
        refine ⟨rfl, ?_⟩
        intro w hw
        simp only [List.mem_cons, List.mem_singleton, List.not_mem_nil, or_false] at hw
        rcases hw with hw | hw | hw | hw | hw <;> exact ⟨_, hw⟩
  · simp only [hen, Bool.false_eq_true, if_false, Option.pure_def, Option.some.injEq] at h
    exact Or.inl h.symm

/-- C11 as stated fails: with EC2 the only enabled kind and data for it, the
EC2 section is five lines of which the last is not followed by one more
newline token; in the HTML report the closing separator comes right after
the `<br>` of the last line. -/
theorem ec2Writes_has_no_blank_line :
    ec2Writes (selectRenderer true) ec2Config ec2Bag =
      some [ "<strong>EC2</strong>: i-0abc<br>", "CPU: 12.50% (avg), 0.00% (max)<br>",
        "Status Checks Failed: 0<br>", "Network In: 3.00 MB<br>", "Network Out: 0.00 MB<br>" ] ∧
    ¬ endsWithBlankLine (selectRenderer true)
      [ "<strong>EC2</strong>: i-0abc<br>", "CPU: 12.50% (avg), 0.00% (max)<br>",
        "Status Checks Failed: 0<br>", "Network In: 3.00 MB<br>", "Network Out: 0.00 MB<br>" ] ∧
    BuildMessage (RangeOrder.inOrder _) ec2Config intervalParams ec2Bag true =
      some ("<html><body style=\"font-family: monospace; white-space: pre-wrap;\">" ++
        "<hr style=\"border:none;border-top:1px solid #ccc;margin:12px 0;\">" ++
        "05/03/2024 07:08:09<br><br>" ++
        "<strong>EC2</strong>: i-0abc<br>CPU: 12.50% (avg), 0.00% (max)<br>" ++
        "Status Checks Failed: 0<br>Network In: 3.00 MB<br>Network Out: 0.00 MB<br>" ++
        "<hr style=\"border:none;border-top:1px solid #ccc;margin:12px 0;\">" ++
        "</body></html>") := by
  refine ⟨by decide, ?_, by decide⟩
  rintro ⟨before, line, h⟩
  have hlast := congrArg List.getLast? h
  simp [selectRenderer, htmlR] at hlast

/-- C11 (amended). Every emitted section other than EC2 ends with a blank
separator line: in both dialects the strings written for a rendered section
of the metrics agent, S3, ALB, CloudFront, RDS and WAF, for each DynamoDB
table and for each log group end with the last content line, closed by the
newline token, and one more newline token.  The EC2 section is five lines,
each closed by one newline token, without the extra newline token, and the
block of the metrics agent is written right after it. -/
theorem sections_end_with_blank_line {F : Type} [Float64 F] (ro : RangeOrder (GoAny F))
    (cfg : Config) (timeParams : TimeParams) (allMetrics : GoMap (GoAny F)) (forEmail : Bool) :
    (∀ ws, cloudwatchAgentWrites (selectRenderer forEmail) cfg allMetrics = some ws →
      ws = [] ∨ endsWithBlankLine (selectRenderer forEmail) ws) ∧
    (∀ ws, s3Writes (selectRenderer forEmail) cfg timeParams allMetrics = some ws →
      ws = [] ∨ endsWithBlankLine (selectRenderer forEmail) ws) ∧
    (∀ ws, albWrites (selectRenderer forEmail) cfg allMetrics = some ws →
      ws = [] ∨ endsWithBlankLine (selectRenderer forEmail) ws) ∧
    (∀ ws, cloudfrontWrites (selectRenderer forEmail) cfg allMetrics = some ws →
      ws = [] ∨ endsWithBlankLine (selectRenderer forEmail) ws) ∧
    (∀ ws, rdsWrites (selectRenderer forEmail) cfg allMetrics = some ws →
      ws = [] ∨ endsWithBlankLine (selectRenderer forEmail) ws) ∧
    (∀ ws, wafWrites (selectRenderer forEmail) cfg allMetrics = some ws →
      ws = [] ∨ endsWithBlankLine (selectRenderer forEmail) ws) ∧
    (∀ (table : String) (m : GoMap F),
      endsWithBlankLine (selectRenderer forEmail)
        (dynamoTableWrites (selectRenderer forEmail) table m)) ∧
    (∀ (lg : String) (cnt : GoMap Int),
      endsWithBlankLine (selectRenderer forEmail)
        (logGroupWrites (selectRenderer forEmail) lg cnt)) ∧
    (∀ ws, ec2Writes (selectRenderer forEmail) cfg allMetrics = some ws →
      ws = [] ∨ (ws.length = 5 ∧ ∀ w ∈ ws, isLine (selectRenderer forEmail) w)) ∧
    (∀ out, BuildMessageWrites ro cfg timeParams allMetrics forEmail = some out →
      ∃ ec2 agent rest,
        ec2Writes (selectRenderer forEmail) cfg allMetrics = some ec2 ∧
        cloudwatchAgentWrites (selectRenderer forEmail) cfg allMetrics = some agent ∧
        out = headerWrites (selectRenderer forEmail) timeParams ++ ec2 ++ agent ++ rest) := by
  refine ⟨cloudwatchAgentWrites_blank _ cfg allMetrics, s3Writes_blank _ cfg timeParams allMetrics,
    albWrites_blank _ cfg allMetrics, cloudfrontWrites_blank _ cfg allMetrics,
    rdsWrites_blank _ cfg allMetrics, wafWrites_blank _ cfg allMetrics, ?_, ?_,
    ec2Writes_lines _ cfg allMetrics, ?_⟩
  · intro table m
    unfold dynamoTableWrites
    repeat (first | exact endsWithBlankLine_base _ _ | apply endsWithBlankLine_cons)
  · intro lg cnt
    unfold logGroupWrites
    repeat (first | exact endsWithBlankLine_base _ _ | apply endsWithBlankLine_cons)
  · intro out h
    rw [BuildMessageWrites_eq_some] at h
    obtain ⟨ec2, h1, agent, h2, s3, _, alb, _, cloudfront, _, dynamodb, _, rds, _, waf, _,
      logs, _, hws⟩ := h
    refine ⟨ec2, agent, s3 ++ alb ++ cloudfront ++ dynamodb ++ rds ++ waf ++ logs ++
      [(selectRenderer forEmail).sep timeParams.IsDailyReport], h1, h2, ?_⟩
    rw [← hws]
    simp only [List.append_assoc]

/-- C11 (amended), for the bucket `my_bucket` on a daily report: the S3
section ends with a blank line. -/
theorem sections_end_with_blank_line_witness :
    s3Writes (selectRenderer false) s3Config dailyParams s3Bag =
      some ["*S3* my\\_bucket\n", "Size: 12.34 MB\n", "Requests: 7\n", "4xx Errors: 0\n",
        "5xx Errors: 0\n", "\n"] ∧
    (["*S3* my\\_bucket\n", "Size: 12.34 MB\n", "Requests: 7\n", "4xx Errors: 0\n",
        "5xx Errors: 0\n", "\n"] = [] ∨
      endsWithBlankLine (selectRenderer false)
        ["*S3* my\\_bucket\n", "Size: 12.34 MB\n", "Requests: 7\n", "4xx Errors: 0\n",
          "5xx Errors: 0\n", "\n"]) :=
  ⟨by decide,
    (sections_end_with_blank_line (RangeOrder.inOrder _) s3Config dailyParams s3Bag false).2.1
      _ (by decide)⟩

/-! ### Missing metrics -/

/-- Appending the strings of a list to a string one after the other. -/
theorem foldl_append_eq (l : List String) (acc : String) :
    l.foldl (fun r s => r ++ s) acc = acc ++ l.foldl (fun r s => r ++ s) "" := by
  induction l generalizing acc with
  | nil => simp
  | cons a l ih =>
    simp only [List.foldl_cons]
    rw [ih (acc ++ a), ih ("" ++ a)]
    simp [String.append_assoc]

/-- The concatenation of two lists of strings. -/
theorem join_append (l1 l2 : List String) :
    String.join (l1 ++ l2) = String.join l1 ++ String.join l2 := by
  simp only [String.join, List.foldl_append]
  exact foldl_append_eq l2 _

/-- The text of a report: the header, the text of the sections, and the
closing separator. -/
theorem join_writes (r : renderer) (timeParams : TimeParams) (body : List String) :
    String.join (headerWrites r timeParams ++ body ++ [r.sep timeParams.IsDailyReport]) =
      r.sep timeParams.IsDailyReport ++ timeParams.EndTime.Format ++ r.nl ++ r.nl ++
        String.join body ++ r.sep timeParams.IsDailyReport := by
  rw [join_append, join_append]
  simp [headerWrites, String.join, String.append_assoc]

/-- A report that is written is the header, the strings of the nine blocks
and the closing separator. -/
theorem BuildMessageWrites_frame {F : Type} [Float64 F] (ro : RangeOrder (GoAny F))
    (cfg : Config) (timeParams : TimeParams) (allMetrics : GoMap (GoAny F)) (forEmail : Bool)
    (out : List String)
    (h : BuildMessageWrites ro cfg timeParams allMetrics forEmail = some out) :
    ∃ body, out = headerWrites (selectRenderer forEmail) timeParams ++ body ++
      [(selectRenderer forEmail).sep timeParams.IsDailyReport] := by
  rw [BuildMessageWrites_eq_some] at h
  obtain ⟨w1, _, w2, _, w3, _, w4, _, w5, _, w6, _, w7, _, w8, _, w9, _, hws⟩ := h
  refine ⟨w1 ++ w2 ++ w3 ++ w4 ++ w5 ++ w6 ++ w7 ++ w8 ++ w9, ?_⟩
  rw [← hws]
  simp only [List.append_assoc]

/-- A two-digit field of the timestamp has two characters. -/
theorem padNat_two_length : ∀ n, n < 100 → (padNat 2 n).length = 2 := by
  decide

/-- The month and the day of a civil date are in range. -/
theorem civilFromDays_bounds (days : Int) :
    1 ≤ (civilFromDays days).2.1 ∧ (civilFromDays days).2.1 ≤ 12 ∧
    1 ≤ (civilFromDays days).2.2 ∧ (civilFromDays days).2.2 ≤ 31 := by
  simp only [civilFromDays]
  split_ifs <;> omega

/-- C18. Document framing: in the Telegram markup the report, which exists
unless a payload that is read has the wrong shape, starts with the separator
of the kind of report, then `EndTime` formatted as day, month and year
between slashes, a blank, and hour, minute and second between colons (day,
month, hour, minute and second of two digits, the year padded to four), then
two newlines, and it ends with the same separator; the separator is a blank
line, a line of `=` separated by blanks for a daily report and of `-`
separated by blanks otherwise, and a blank line; in HTML the separator is one
horizontal rule whatever the kind of report. -/
theorem BuildMessage_framing {F : Type} [Float64 F] (ro : RangeOrder (GoAny F)) (cfg : Config)
    (timeParams : TimeParams) (allMetrics : GoMap (GoAny F)) :
    ((ShapeMismatch cfg timeParams allMetrics ∧
        BuildMessage ro cfg timeParams allMetrics false = none) ∨
      (¬ ShapeMismatch cfg timeParams allMetrics ∧
        ∃ body, BuildMessage ro cfg timeParams allMetrics false =
          some (tg.sep timeParams.IsDailyReport ++ timeParams.EndTime.Format ++ "\n" ++ "\n" ++
            body ++ tg.sep timeParams.IsDailyReport))) ∧
    tg.sep true = "\n= = = = = = = = = = = = = = =\n\n" ∧
    tg.sep false = "\n- - - - - - - - - - - - - - -\n\n" ∧
    (∀ daily, htmlR.sep daily =
      "<hr style=\"border:none;border-top:1px solid #ccc;margin:12px 0;\">") ∧
    timeParams.EndTime.Format =
      padNat 2 (civilFromDays (timeParams.EndTime.unixSec / 86400)).2.2.toNat ++ "/" ++
      padNat 2 (civilFromDays (timeParams.EndTime.unixSec / 86400)).2.1.toNat ++ "/" ++
      (if (civilFromDays (timeParams.EndTime.unixSec / 86400)).1 < 0 then "-" else "") ++
      padNat 4 (civilFromDays (timeParams.EndTime.unixSec / 86400)).1.natAbs ++ " " ++
      padNat 2 (timeParams.EndTime.unixSec % 86400 / 3600).toNat ++ ":" ++
      padNat 2 (timeParams.EndTime.unixSec % 86400 % 3600 / 60).toNat ++ ":" ++
      padNat 2 (timeParams.EndTime.unixSec % 86400 % 60).toNat ∧
    (padNat 2 (civilFromDays (timeParams.EndTime.unixSec / 86400)).2.2.toNat).length = 2 ∧
    (padNat 2 (civilFromDays (timeParams.EndTime.unixSec / 86400)).2.1.toNat).length = 2 ∧
    (padNat 2 (timeParams.EndTime.unixSec % 86400 / 3600).toNat).length = 2 ∧
    (padNat 2 (timeParams.EndTime.unixSec % 86400 % 3600 / 60).toNat).length = 2 ∧
    (padNat 2 (timeParams.EndTime.unixSec % 86400 % 60).toNat).length = 2 := by
  have hb := civilFromDays_bounds (timeParams.EndTime.unixSec / 86400)
  refine ⟨?_, rfl, rfl, fun _ => rfl, rfl, padNat_two_length _ (by omega),
    padNat_two_length _ (by omega), padNat_two_length _ (by omega),
    padNat_two_length _ (by omega), padNat_two_length _ (by omega)⟩
  by_cases hm : ShapeMismatch cfg timeParams allMetrics
  · exact Or.inl ⟨hm, (BuildMessage_eq_none_iff ro cfg timeParams allMetrics false).mpr hm⟩
  · refine Or.inr ⟨hm, ?_⟩
    cases hw : BuildMessageWrites ro cfg timeParams allMetrics false with
    | none =>
      have hnone : BuildMessage ro cfg timeParams allMetrics false = none := by
        simp [BuildMessage, hw]
      exact absurd ((BuildMessage_eq_none_iff ro cfg timeParams allMetrics false).mp hnone) hm
    | some out =>
      obtain ⟨body, hbody⟩ := BuildMessageWrites_frame ro cfg timeParams allMetrics false out hw
      refine ⟨String.join body, ?_⟩
      simp only [BuildMessage, hw, Option.bind_eq_bind, Option.some_bind, Bool.false_eq_true,
        if_false, Option.pure_def, hbody, join_writes]
      rfl

/-- C19. HTML shell and bold: with `forEmail = true` the report, which exists
unless a payload that is read has the wrong shape, is the shell
`<html><body style="font-family: monospace; white-space: pre-wrap;">`, the
body (the strings written, concatenated) and `</body></html>`, and a bold
label is `<strong>`, the escaped label and `</strong>` (for the labels that
are written, which have nothing to escape, the label itself between the
tags); with `forEmail = false` the report is the body without a shell and a
bold label is the label between two `*`. -/
theorem BuildMessage_html_shell {F : Type} [Float64 F] (ro : RangeOrder (GoAny F))
    (cfg : Config) (timeParams : TimeParams) (allMetrics : GoMap (GoAny F)) :
    BuildMessage ro cfg timeParams allMetrics true =
      (BuildMessageWrites ro cfg timeParams allMetrics true).map (fun ws =>
        "<html><body style=\"font-family: monospace; white-space: pre-wrap;\">" ++
          String.join ws ++ "</body></html>") ∧
    BuildMessage ro cfg timeParams allMetrics false =
      (BuildMessageWrites ro cfg timeParams allMetrics false).map String.join ∧
    ((ShapeMismatch cfg timeParams allMetrics ∧
        BuildMessage ro cfg timeParams allMetrics true = none) ∨
      (¬ ShapeMismatch cfg timeParams allMetrics ∧
        ∃ body, BuildMessage ro cfg timeParams allMetrics true =
          some ("<html><body style=\"font-family: monospace; white-space: pre-wrap;\">" ++
            body ++ "</body></html>"))) ∧
    (∀ label, (selectRenderer true).bold label =
      "<strong>" ++ htmlEscapeString label ++ "</strong>") ∧
    (∀ label ∈ boldLabels, (selectRenderer true).bold label =
      "<strong>" ++ label ++ "</strong>") ∧
    (∀ label, (selectRenderer false).bold label = "*" ++ label ++ "*") := by
  have h1 : BuildMessage ro cfg timeParams allMetrics true =
      (BuildMessageWrites ro cfg timeParams allMetrics true).map (fun ws =>
        "<html><body style=\"font-family: monospace; white-space: pre-wrap;\">" ++
          String.join ws ++ "</body></html>") := by
    unfold BuildMessage
    cases BuildMessageWrites ro cfg timeParams allMetrics true <;> rfl
  have h2 : BuildMessage ro cfg timeParams allMetrics false =
      (BuildMessageWrites ro cfg timeParams allMetrics false).map String.join := by
    unfold BuildMessage
    cases BuildMessageWrites ro cfg timeParams allMetrics false <;> rfl
  refine ⟨h1, h2, ?_, fun _ => rfl, ?_, fun _ => rfl⟩
  · by_cases hm : ShapeMismatch cfg timeParams allMetrics
    · exact Or.inl ⟨hm, (BuildMessage_eq_none_iff ro cfg timeParams allMetrics true).mpr hm⟩
    · refine Or.inr ⟨hm, ?_⟩
      cases hw : BuildMessageWrites ro cfg timeParams allMetrics true with
      | none =>
        have hnone : BuildMessage ro cfg timeParams allMetrics true = none := by
          rw [h1, hw]
          rfl
        exact absurd ((BuildMessage_eq_none_iff ro cfg timeParams allMetrics true).mp hnone) hm
      | some out =>
        refine ⟨String.join out, ?_⟩
        rw [h1, hw]
        rfl
  · intro label hl
    simp only [boldLabels, List.mem_cons, List.mem_singleton, List.not_mem_nil, or_false] at hl
    rcases hl with rfl | rfl | rfl | rfl | rfl | rfl | rfl | rfl | rfl <;> decide

/-! ### What the validator guarantees -/

/-- C21. Validator guarantees the configuration invariant: a configuration on
which `validateConfig` returns no error has its daily-report hour in 0..23, a
positive default period, and for every enabled service its required
identifiers: a non-empty EC2 instance identifier, S3 bucket name, ALB name,
CloudFront distribution identifier, CloudWatch Agent instance identifier, WAF
web ACL identifier and name, a non-empty list of log-group names and of table
names, and for RDS a non-empty cluster identifier or instance identifier. -/
theorem validateConfig_invariant (c : Config) (h : validateConfig c = Except.ok ()) :
    (0 ≤ c.Global.Monitoring.DailyReportHourUTC ∧
      c.Global.Monitoring.DailyReportHourUTC ≤ 23) ∧
    0 < c.Global.Monitoring.DefaultPeriod ∧
    (c.Services.EC2.Enabled = true → c.Services.EC2.InstanceID ≠ "") ∧
    (c.Services.S3.Enabled = true → c.Services.S3.BucketName ≠ "") ∧
    (c.Services.ALB.Enabled = true → c.Services.ALB.ALBName ≠ "") ∧
    (c.Services.CloudFront.Enabled = true → c.Services.CloudFront.DistributionID ≠ "") ∧
    (c.Services.CloudWatchAgent.Enabled = true → c.Services.CloudWatchAgent.InstanceID ≠ "") ∧
    (c.Services.WAF.Enabled = true →
      c.Services.WAF.WebACLID ≠ "" ∧ c.Services.WAF.WebACLName ≠ "") ∧
    (c.Services.CloudWatchLogs.Enabled = true →
      c.Services.CloudWatchLogs.LogGroupNames ≠ []) ∧
    (c.Services.DynamoDB.Enabled = true → c.Services.DynamoDB.TableNames ≠ []) ∧
    (c.Services.RDS.Enabled = true →
      c.Services.RDS.ClusterID ≠ "" ∨ c.Services.RDS.DBInstanceIdentifier ≠ "") := by
  unfold validateConfig at h
  simp only [↓ite_throw_bind, ↓pure_bind_unit] at h
  simp only [ite_eq_ok, error_eq_ok, and_false, false_or] at h
  rcases h with ⟨_, _, _, _, _, _, _, _, hh, hp, h1, h2, h3, h4, h5, h6, hw⟩ |
      ⟨_, _, _, _, hh, hp, h1, h2, h3, h4, h5, h6, hw⟩ <;>
    rcases hw with ⟨hwe, hw1, hw2, hd, hr⟩ | ⟨hwe, hd, hr⟩ <;>
    rcases hr with ⟨hre, hr1, _⟩ | ⟨hre, _⟩ <;>
    refine ⟨by omega, by omega, fun he hid => h1 ⟨he, hid⟩, fun he hid => h2 ⟨he, hid⟩,
      fun he hid => h3 ⟨he, hid⟩, fun he hid => h4 ⟨he, hid⟩, fun he hid => h5 ⟨he, hid⟩,
      ?_, fun he hnil => h6 ⟨he, by rw [hnil]; rfl⟩, fun he hnil => hd ⟨he, by rw [hnil]; rfl⟩,
      ?_⟩ <;>
    first
      | exact fun _ => ⟨hw1, hw2⟩
      | exact fun he => absurd he hwe
      | exact fun _ => not_and_or.mp hr1
      | exact fun he => absurd he hre

/-- C21, for a configuration with every service enabled and identified. -/
theorem validateConfig_invariant_witness :
    (0 ≤ allEnabledConfig.Global.Monitoring.DailyReportHourUTC ∧
      allEnabledConfig.Global.Monitoring.DailyReportHourUTC ≤ 23) ∧
    0 < allEnabledConfig.Global.Monitoring.DefaultPeriod ∧
    (allEnabledConfig.Services.EC2.Enabled = true →
      allEnabledConfig.Services.EC2.InstanceID ≠ "") ∧
    (allEnabledConfig.Services.S3.Enabled = true →
      allEnabledConfig.Services.S3.BucketName ≠ "") ∧
    (allEnabledConfig.Services.ALB.Enabled = true →
      allEnabledConfig.Services.ALB.ALBName ≠ "") ∧
    (allEnabledConfig.Services.CloudFront.Enabled = true →
      allEnabledConfig.Services.CloudFront.DistributionID ≠ "") ∧
    (allEnabledConfig.Services.CloudWatchAgent.Enabled = true →
      allEnabledConfig.Services.CloudWatchAgent.InstanceID ≠ "") ∧
    (allEnabledConfig.Services.WAF.Enabled = true →
      allEnabledConfig.Services.WAF.WebACLID ≠ "" ∧
        allEnabledConfig.Services.WAF.WebACLName ≠ "") ∧
    (allEnabledConfig.Services.CloudWatchLogs.Enabled = true →
      allEnabledConfig.Services.CloudWatchLogs.LogGroupNames ≠ []) ∧
    (allEnabledConfig.Services.DynamoDB.Enabled = true →
      allEnabledConfig.Services.DynamoDB.TableNames ≠ []) ∧
    (allEnabledConfig.Services.RDS.Enabled = true →
      allEnabledConfig.Services.RDS.ClusterID ≠ "" ∨
        allEnabledConfig.Services.RDS.DBInstanceIdentifier ≠ "") :=
  validateConfig_invariant allEnabledConfig (by decide)

/-- The validator rejects an enabled service without its identifier, here EC2
without an instance identifier and RDS without either identifier. -/
theorem validateConfig_rejects_samples :
    validateConfig (withEC2InstanceID allEnabledConfig "") =
      Except.error "EC2 is enabled but instanceId is empty" ∧
    validateConfig
        { allEnabledConfig with
          Services := { allEnabledConfig.Services with RDS := ⟨true, "", ""⟩ } } =
      Except.error ("RDS is enabled but both clusterId and dbInstanceIdentifier are empty - " ++
        "at least one is required") ∧
    validateConfig allEnabledConfig = Except.ok () := by
  decide

/-! ### The aggregation period -/

/-- The difference of two instants, as `Time.Sub` gives it, reaches 24 hours
exactly when the instants are 24 hours apart or more. -/
theorem Sub_ge_day (t u : Time) :
    t.Sub u ≥ Duration.mul 24 Hour ↔ t.unixNano - u.unixNano ≥ 86400000000000 := by
  have hday : Duration.mul 24 Hour = 86400000000000 := by decide
  have key : ∀ d : Int,
      (if d > 9223372036854775807 then (9223372036854775807 : Int)
        else if d < -9223372036854775808 then -9223372036854775808 else d) ≥
          (86400000000000 : Int) ↔ d ≥ 86400000000000 := by
    intro d
    split_ifs <;> omega
  rw [hday]
  exact key _

/-- The period that `WAFMetrics` chooses for a window. -/
theorem WAFMetrics_period_window (startTime endTime : Time) :
    WAFMetrics_period [("startTime", startTime), ("endTime", endTime)] =
      if endTime.unixNano - startTime.unixNano ≥ 86400000000000 then 86400 else 3600 := by
  have h1 : GoMap.getD [("startTime", startTime), ("endTime", endTime)] "endTime" zeroTime =
      endTime := rfl
  have h2 : GoMap.getD [("startTime", startTime), ("endTime", endTime)] "startTime" zeroTime =
      startTime := rfl
  unfold WAFMetrics_period
  simp only [h1, h2]
  by_cases h : endTime.unixNano - startTime.unixNano ≥ 86400000000000
  · rw [if_pos ((Sub_ge_day endTime startTime).mpr h), if_pos h]
  · rw [if_neg (fun hs => h ((Sub_ge_day endTime startTime).mp hs)), if_neg h]

/-- The interval offset `-time.Duration(p) * time.Hour` is `p` hours back for
every period, positive or not, whose length fits a `time.Duration`. -/
theorem intervalOffset_eq_of_fits (p : Int) (hmin : -2562047 ≤ p) (hmax : p ≤ 2562047) :
    Duration.mul (Duration.neg (Duration.ofInt p)) Hour = -(p * 3600000000000) := by
  unfold Duration.mul Duration.neg Duration.ofInt Hour
  rw [wrapInt64_of_range p (by omega) (by omega), wrapInt64_of_range (-p) (by omega) (by omega),
    wrapInt64_of_range _ (by omega) (by omega)]
  ring

/-- The lower bound `-2562047` of the periods whose length fits a
`time.Duration` is tight: for the default period -2562048, which the validator
rejects, the offset overflows `int64`, the interval window stretches some 292
years back, and the period chosen is 86400 seconds. -/
theorem WAFMetrics_period_below_range :
    validateConfig (baseConfig 0 (-2562048)) =
      Except.error "defaultPeriod must be greater than 0" ∧
    (baseConfig 0 (-2562048)).GetTimeParams sampleNow = Except.ok
      { StartTime := ⟨sampleNow.unixNano - 9223371273709551616⟩
        EndTime := sampleNow
        IsDailyReport := false
        Location := Location.UTC } ∧
    WAFMetrics_period (timeParamsMap
      { StartTime := ⟨sampleNow.unixNano - 9223371273709551616⟩
        EndTime := sampleNow
        IsDailyReport := false
        Location := Location.UTC }) = 86400 := by
  decide

/-- C22. Aggregation granularity follows the window span: the period that
`WAFMetrics` chooses is 86400 seconds if the end of the window is 24 hours or
more after its start and 3600 seconds otherwise; so for every window that
`GetTimeParams` produces with `IsDailyReport = true` the period is 86400, and
for every window that it produces with `IsDailyReport = false` for a
configuration that the validator accepts and whose default period is below 24
the period is 3600.  The last part holds for every default period `p` with
`-2562047 ≤ p < 24`, accepted or not. -/
theorem WAFMetrics_period_follows_span (c : Config) (now startTime endTime : Time) :
    WAFMetrics_period [("startTime", startTime), ("endTime", endTime)] =
      (if endTime.unixNano - startTime.unixNano ≥ 24 * 3600 * 1000000000 then 86400
        else 3600) ∧
    (∀ tp, c.GetTimeParams now = Except.ok tp → tp.IsDailyReport = true →
      WAFMetrics_period (timeParamsMap tp) = 86400) ∧
    (∀ tp, validateConfig c = Except.ok () → c.GetTimeParams now = Except.ok tp →
      tp.IsDailyReport = false → c.Global.Monitoring.DefaultPeriod < 24 →
      WAFMetrics_period (timeParamsMap tp) = 3600) ∧
    (∀ tp, c.GetTimeParams now = Except.ok tp → tp.IsDailyReport = false →
      -2562047 ≤ c.Global.Monitoring.DefaultPeriod → c.Global.Monitoring.DefaultPeriod < 24 →
      WAFMetrics_period (timeParamsMap tp) = 3600) := by
  have hinterval : ∀ tp, c.GetTimeParams now = Except.ok tp → tp.IsDailyReport = false →
      -2562047 ≤ c.Global.Monitoring.DefaultPeriod → c.Global.Monitoring.DefaultPeriod < 24 →
      WAFMetrics_period (timeParamsMap tp) = 3600 := by
    intro tp htp hdaily hmin hmax
    unfold Config.GetTimeParams at htp
    simp only [Except.ok.injEq] at htp
    subst htp
    simp only [decide_eq_false_iff_not] at hdaily
    simp only [timeParamsMap, WAFMetrics_period_window, hdaily, decide_False,
      Bool.false_eq_true, if_false, intervalOffset_eq_of_fits _ hmin (by omega), Time.Add]
    rw [if_neg (by omega)]
  refine ⟨WAFMetrics_period_window startTime endTime, ?_, ?_, hinterval⟩
  · intro tp htp hdaily
    unfold Config.GetTimeParams at htp
    simp only [Except.ok.injEq] at htp
    subst htp
    simp only [decide_eq_true_eq] at hdaily
    simp only [timeParamsMap, WAFMetrics_period_window, hdaily, decide_True, if_true,
      dailyOffset_eq, Time.Add]
    rw [if_pos (by omega)]
  · intro tp hvalid htp hdaily hmax
    have hpos := (validateConfig_ok_monitoring c hvalid).2.2
    exact hinterval tp htp hdaily (by omega) hmax

/-- C22, at 2024-03-05 07:08:09 UTC: the daily window gives 86400 seconds,
and the interval windows of the accepted periods of 6 and of 23 hours give
3600 seconds. -/
theorem WAFMetrics_period_follows_span_witness :
    WAFMetrics_period (timeParamsMap dailyParams) = 86400 ∧
    (validateConfig (baseConfig 0 6) = Except.ok () ∧
      WAFMetrics_period (timeParamsMap intervalParams) = 3600) ∧
    (validateConfig (baseConfig 0 23) = Except.ok () ∧
      WAFMetrics_period (timeParamsMap
        { StartTime := ⟨sampleNow.unixNano - 23 * 3600 * 1000000000⟩
          EndTime := sampleNow
          IsDailyReport := false
          Location := Location.UTC }) = 3600) :=
  ⟨(WAFMetrics_period_follows_span (baseConfig 7 6) sampleNow sampleNow sampleNow).2.1
      dailyParams (by decide) rfl,
    ⟨by decide,
      (WAFMetrics_period_follows_span (baseConfig 0 6) sampleNow sampleNow sampleNow).2.2.1
        intervalParams (by decide) (by decide) rfl (by decide)⟩,
    ⟨by decide,
      (WAFMetrics_period_follows_span (baseConfig 0 23) sampleNow sampleNow sampleNow).2.2.1
        _ (by decide) (by decide) rfl (by decide)⟩⟩

end Telegraws
